import Mathlib

/-! PhysxWrap: scene lifecycle, stepping and actor creation.

A shallow embedding of `src/physx_wrap/detail/physx_wrap_impl.cpp`.

* Engine resources are opaque pointers; `0` is `nullptr`.
* `float` values are idealised as exact rationals.
* Every call that leaves the wrapper (engine, debug transport, loader, cache)
  is appended to a trace, so that the order of calls can be stated.
* The replies of the engine are inputs of the operation that asks for them.
* An operation that dereferences a null pointer, or reads or writes a buffer
  outside its bounds, has no defined result; such operations return `Option`,
  and `none` stands for that fault.
-/

namespace PhysxWrap

/-- An engine resource pointer; `0` is `nullptr`. -/
abbrev Ptr := Nat

/-- The `Vector3` of the public interface. -/
structure Vector3 where
  X : ℚ
  Y : ℚ
  Z : ℚ
  deriving DecidableEq

/-- The `Quat` of the public interface. -/
structure Quat where
  X : ℚ
  Y : ℚ
  Z : ℚ
  W : ℚ
  deriving DecidableEq

/-- The engine's `PxTransform`: a position `p` and an orientation `q`. -/
structure PxTransform where
  p : Vector3
  q : Quat
  deriving DecidableEq

/-- The value of `PxQuat(PxIdentity)`. -/
def PxIdentity : Quat := ⟨0, 0, 0, 1⟩

/-- The value of `PxTransform(x, y, z)`: a translation with identity orientation. -/
def PxTransform.at (pos : Vector3) : PxTransform := ⟨pos, PxIdentity⟩

/-- Shapes handed to `PxCreateDynamic`, `PxCreateKinematic` and `PxCreateStatic`. -/
inductive Geometry where
  | box (halfExtents : Vector3)
  | sphere (radius : ℚ)
  | capsule (radius halfHeight : ℚ)
  | triangleMesh (mesh : Ptr) (scale : Vector3)
  deriving DecidableEq

/-- Calls made by the wrapper to its collaborators, in the order they happen. -/
inductive Call where
  | createFoundation
  | pvdInit
  | pvdCreateConnection
  | createPhysics
  | initExtensions
  | createMaterial
  | createCooking
  | createCpuDispatcher
  | createScene
  | setVisualizationParameter
  | getScenePvdClient
  | setScenePvdFlag
  | lockWrite
  | unlockWrite
  | releaseActor (actor : Ptr)
  | releaseScene
  | releaseCpuDispatcher
  | releaseCooking
  | closeExtensions
  | releasePhysics
  | pvdClose
  | releaseFoundation
  | simulate (dt : ℚ)
  | fetchResults
  | pxCreatePlane (nx ny nz distance : ℚ)
  | createHeightField (columns rows : Nat)
  | createRigidStatic (pose : PxTransform)
  | createExclusiveShape (actor heightField : Ptr) (heightScale rowScale columnScale : ℚ)
  | pxCreateDynamic (pose : PxTransform) (geom : Geometry) (density : ℚ)
  | pxCreateKinematic (pose : PxTransform) (geom : Geometry) (density : ℚ)
  | pxCreateStatic (pose : PxTransform) (geom : Geometry)
  | cookTriangleMesh (points triangles : Nat)
  | createTriangleMesh
  | setAngularDamping (actor : Ptr)
  | setActorFlagVisualization (actor : Ptr)
  | clearKinematicFlag (actor : Ptr)
  | addActor (actor : Ptr)
  | getGlobalPose (actor : Ptr)
  | setGlobalPosition (actor : Ptr) (pos : Vector3)
  | setGlobalRotation (actor : Ptr) (rotate : Quat)
  | cacheGet (path : String)
  | load (path : String)
  | cacheSet (path : String)
  deriving DecidableEq

/-- The fields of `PhysxSceneImpl`, together with two observations of the
engine: `attached`, the actors added to the current `PxScene` by `addActor`
(emptied when that `PxScene` is released), and `trace`, the calls made so far. -/
structure PhysxSceneImpl where
  mFoundation : Ptr
  mPhysicsSDK : Ptr
  mCooking : Ptr
  mScene : Ptr
  mCpuDispatcher : Ptr
  mMaterial : Ptr
  mInit : Bool
  mTimestep : ℚ
  mSupportPVD : Bool
  mPreUpdateTime : Nat
  mPhysicsActors : List Ptr
  attached : List Ptr
  trace : List Call
  deriving DecidableEq

namespace PhysxSceneImpl

/-- Record one call. -/
@[simps]
def log (s : PhysxSceneImpl) (c : Call) : PhysxSceneImpl :=
  { s with trace := s.trace ++ [c] }

/-- Record several calls in order. -/
@[simps]
def logAll (s : PhysxSceneImpl) (cs : List Call) : PhysxSceneImpl :=
  { s with trace := s.trace ++ cs }

/-- The assignment `mFoundation = p`. -/
@[simps]
def setFoundation (s : PhysxSceneImpl) (p : Ptr) : PhysxSceneImpl :=
  { s with mFoundation := p }

/-- The assignment `mPhysicsSDK = p`. -/
@[simps]
def setPhysicsSDK (s : PhysxSceneImpl) (p : Ptr) : PhysxSceneImpl :=
  { s with mPhysicsSDK := p }

/-- The assignment `mCooking = p`. -/
@[simps]
def setCooking (s : PhysxSceneImpl) (p : Ptr) : PhysxSceneImpl :=
  { s with mCooking := p }

/-- The assignment `mScene = p`. A `PxScene` that has just been created or
released has no actors. -/
@[simps]
def setScene (s : PhysxSceneImpl) (p : Ptr) : PhysxSceneImpl :=
  { s with mScene := p, attached := [] }

/-- The assignment `mCpuDispatcher = p`. -/
@[simps]
def setCpuDispatcher (s : PhysxSceneImpl) (p : Ptr) : PhysxSceneImpl :=
  { s with mCpuDispatcher := p }

/-- The assignment `mMaterial = p`. -/
@[simps]
def setMaterial (s : PhysxSceneImpl) (p : Ptr) : PhysxSceneImpl :=
  { s with mMaterial := p }

/-- A store to the atomic flag `mInit`. -/
@[simps]
def setInit (s : PhysxSceneImpl) (b : Bool) : PhysxSceneImpl :=
  { s with mInit := b }

/-- The assignment `mTimestep = t`. -/
@[simps]
def setTimestep (s : PhysxSceneImpl) (t : ℚ) : PhysxSceneImpl :=
  { s with mTimestep := t }

/-- The assignment `mSupportPVD = b`. -/
@[simps]
def setSupportPVD (s : PhysxSceneImpl) (b : Bool) : PhysxSceneImpl :=
  { s with mSupportPVD := b }

/-- The call `mPhysicsActors.clear()`. -/
@[simps]
def clearActors (s : PhysxSceneImpl) : PhysxSceneImpl :=
  { s with mPhysicsActors := [] }

/-- The constructor (lines 54-65). `now` is the value of `GetTimeStamp()`.
The member initialiser list does not mention `mMaterial`; its initial value is
the parameter `material`. -/
def new (now : Nat) (material : Ptr) : PhysxSceneImpl :=
  { mFoundation := 0
    mPhysicsSDK := 0
    mCooking := 0
    mScene := 0
    mCpuDispatcher := 0
    mMaterial := material
    mInit := false
    mTimestep := 1 / 60
    mSupportPVD := false
    mPreUpdateTime := now
    mPhysicsActors := []
    attached := []
    trace := [] }

/-- The `SAFE_RELEASE(mScene)` of line 166. -/
def safeReleaseScene (s : PhysxSceneImpl) : PhysxSceneImpl :=
  if s.mScene ≠ 0 then (s.log .releaseScene).setScene 0 else s

/-- The `SAFE_RELEASE(mCpuDispatcher)` of line 167. -/
def safeReleaseCpuDispatcher (s : PhysxSceneImpl) : PhysxSceneImpl :=
  if s.mCpuDispatcher ≠ 0 then (s.log .releaseCpuDispatcher).setCpuDispatcher 0 else s

/-- The `SAFE_RELEASE(mCooking)` of line 168. -/
def safeReleaseCooking (s : PhysxSceneImpl) : PhysxSceneImpl :=
  if s.mCooking ≠ 0 then (s.log .releaseCooking).setCooking 0 else s

/-- The `SAFE_RELEASE(mPhysicsSDK)` of line 172. -/
def safeReleasePhysicsSDK (s : PhysxSceneImpl) : PhysxSceneImpl :=
  if s.mPhysicsSDK ≠ 0 then (s.log .releasePhysics).setPhysicsSDK 0 else s

/-- The `SAFE_RELEASE(mFoundation)` of line 174. -/
def safeReleaseFoundation (s : PhysxSceneImpl) : PhysxSceneImpl :=
  if s.mFoundation ≠ 0 then (s.log .releaseFoundation).setFoundation 0 else s

/-- The inner block of `release` (lines 160-165): take the write lock, release
every registered actor, clear the registry; the lock is given back at the end
of the block. Taking the lock dereferences `mScene`, and the loop dereferences
every registered actor. -/
def releaseActors (s : PhysxSceneImpl) : Option PhysxSceneImpl :=
  if s.mScene = 0 then none else
  if 0 ∈ s.mPhysicsActors then none else
  some ((((s.log .lockWrite).logAll (s.mPhysicsActors.map Call.releaseActor)).clearActors).log
    .unlockWrite)

/-- The `if (mSupportPVD) PxCloseExtensions();` of lines 169-171. -/
def closeExtensionsIfPVD (s : PhysxSceneImpl) : PhysxSceneImpl :=
  if s.mSupportPVD = true then s.log .closeExtensions else s

/-- The statements of `release` after the inner block (lines 166-174). -/
def teardown (s : PhysxSceneImpl) : PhysxSceneImpl :=
  ((s.safeReleaseScene.safeReleaseCpuDispatcher.safeReleaseCooking.closeExtensionsIfPVD
    ).safeReleasePhysicsSDK.log .pvdClose).safeReleaseFoundation

/-- The method `release` (lines 157-176). The compare-and-swap on `mInit`
succeeds, and clears the flag, only when the flag is `true`. -/
def release (s : PhysxSceneImpl) : Option PhysxSceneImpl :=
  if s.mInit = true then
    (releaseActors (s.setInit false)).map teardown
  else
    some s

/-- The destructor (lines 67-72): it only calls `release`. -/
def destructor (s : PhysxSceneImpl) : Option PhysxSceneImpl :=
  s.release

/-- What the engine answers to the calls of one `Init`. -/
structure InitReplies where
  foundation : Ptr
  physics : Ptr
  extensionsOk : Bool
  material : Ptr
  cooking : Ptr
  cpuDispatcher : Ptr
  scene : Ptr
  pvdClient : Ptr
  deriving DecidableEq

/-- The statements `release(); return false;` of every failure branch of
`Init`. -/
def failInit (s : PhysxSceneImpl) : Option (Bool × PhysxSceneImpl) :=
  s.release.map fun s => (false, s)

/-- The debug-transport statements of `Init` before the physics context is
created (lines 83-86). -/
def initPvd (s : PhysxSceneImpl) : PhysxSceneImpl :=
  if s.mSupportPVD = true then s.logAll [.pvdInit, .pvdCreateConnection] else s

/-- The debug-transport statements of `Init` after the simulation context is
created (lines 140-150); `pvdClient` is the result of `getScenePvdClient`. -/
def initPvdScene (pvdClient : Ptr) (s : PhysxSceneImpl) : PhysxSceneImpl :=
  if s.mSupportPVD = true then
    let s : PhysxSceneImpl := s.logAll [.setVisualizationParameter,
      .setVisualizationParameter, .getScenePvdClient]
    if pvdClient ≠ 0 then
      s.logAll [.setScenePvdFlag, .setScenePvdFlag, .setScenePvdFlag]
    else s
  else s

/-- The block of `Init` that the test `mInit.load() == false` guards (lines
76-152): the bootstrap, which ends with `mInit.store(true)` and the assignment
of the timestep. The arguments `ip`, `port`, `timeout` and
`useFullPvdConnection` only travel to the debug transport and are not
represented. -/
def initBody (r : InitReplies) (timestep : ℚ) (supportPVD : Bool) (s : PhysxSceneImpl) :
    Option (Bool × PhysxSceneImpl) :=
  let s : PhysxSceneImpl := (s.log .createFoundation).setFoundation r.foundation
  if s.mFoundation = 0 then failInit s else
  let s : PhysxSceneImpl := s.setSupportPVD supportPVD
  let s : PhysxSceneImpl := s.initPvd
  let s : PhysxSceneImpl := (s.log .createPhysics).setPhysicsSDK r.physics
  if s.mPhysicsSDK = 0 then failInit s else
  let s : PhysxSceneImpl := if s.mSupportPVD = true then s.log .initExtensions else s
  if s.mSupportPVD = true ∧ r.extensionsOk = false then failInit s else
  let s : PhysxSceneImpl := (s.log .createMaterial).setMaterial r.material
  if s.mMaterial = 0 then failInit s else
  let s : PhysxSceneImpl := (s.log .createCooking).setCooking r.cooking
  if s.mCooking = 0 then failInit s else
  let s : PhysxSceneImpl := (s.log .createCpuDispatcher).setCpuDispatcher r.cpuDispatcher
  if s.mCpuDispatcher = 0 then failInit s else
  let s : PhysxSceneImpl := (s.log .createScene).setScene r.scene
  if s.mScene = 0 then failInit s else
  let s : PhysxSceneImpl := s.initPvdScene r.pvdClient
  let s : PhysxSceneImpl := s.setInit true
  let s : PhysxSceneImpl := s.setTimestep timestep
  some (true, s)

/-- The method `Init` (lines 74-155): the load of `mInit`, then the guarded
block, then `return true`. -/
def Init (r : InitReplies) (timestep : ℚ) (supportPVD : Bool) (s : PhysxSceneImpl) :
    Option (Bool × PhysxSceneImpl) :=
  if s.mInit = false then
    initBody r timestep supportPVD s
  else
    some (true, s)

/-- The width of `unsigned long`, the type of `GetTimeStamp()` and of
`mPreUpdateTime`. Only the wrap-around of a clock value below the baseline
depends on it. -/
def ulongBits : Nat := 64

/-- The subtraction `nowTime - mPreUpdateTime` on `unsigned long`. -/
def ulongSub (a b : Nat) : Nat :=
  (a % 2 ^ ulongBits + 2 ^ ulongBits - b % 2 ^ ulongBits) % 2 ^ ulongBits

/-- The value of `float(nowTime - mPreUpdateTime) / 1000.0f` (line 182), in
exact arithmetic. -/
def elapsedSeconds (nowTime preUpdateTime : Nat) : ℚ :=
  (ulongSub nowTime preUpdateTime : ℚ) / 1000

/-- The `while (dtime > 0.0f)` loop of `Update` (lines 184-189). The loop has
no bound of its own: `fuel` bounds the number of iterations and `none` means
that the fuel ran out before `dtime` was exhausted. -/
def simulateLoop (timestep : ℚ) : Nat → ℚ → PhysxSceneImpl → Option PhysxSceneImpl
  | fuel, dtime, s =>
    if dtime > 0 then
      match fuel with
      | 0 => none
      | fuel + 1 =>
        let dt : ℚ := if dtime ≥ timestep then timestep else dtime
        let s : PhysxSceneImpl := s.log (.simulate dt)
        let s : PhysxSceneImpl := s.log .fetchResults
        simulateLoop timestep fuel (dtime - dt) s
    else
      some s

/-- The method `Update` (lines 178-191). `nowTime` is the value of
`GetTimeStamp()`. -/
def Update (fuel : Nat) (nowTime : Nat) (s : PhysxSceneImpl) : Option PhysxSceneImpl :=
  if s.mScene ≠ 0 then
    let timestep : ℚ := s.mTimestep
    let dtime : ℚ := elapsedSeconds nowTime s.mPreUpdateTime
    let s : PhysxSceneImpl := { s with mPreUpdateTime := nowTime % 2 ^ ulongBits }
    simulateLoop timestep fuel dtime s
  else
    some s

/-- The engine calls of a run of steps: `simulate(dt)` then `fetchResults()`
for each step. -/
def stepCalls (steps : List ℚ) : List Call :=
  steps.flatMap (fun dt => [Call.simulate dt, Call.fetchResults])

/-- Each step of a run is the lesser of the time still to simulate and the
timestep. -/
def StepsFollowMin (timestep : ℚ) : ℚ → List ℚ → Prop
  | _, [] => True
  | remaining, dt :: rest =>
    dt = min remaining timestep ∧ StepsFollowMin timestep (remaining - dt) rest

/-! ### Creation operations

Each operation takes the engine's replies to its calls as its first arguments
and returns the actor pointer together with the new state. `PxSceneWriteLock`
locks in its constructor and unlocks when the function returns. -/

/-- The declaration `physx::PxSceneWriteLock scopedLock(*mScene)`. -/
def lockScene (s : PhysxSceneImpl) : Option PhysxSceneImpl :=
  if s.mScene = 0 then none else some (s.log .lockWrite)

/-- The effect of `mScene->addActor(*a)` on the actors attached to the scene. -/
@[simps]
def attach (s : PhysxSceneImpl) (actor : Ptr) : PhysxSceneImpl :=
  { s with attached := s.attached ++ [actor] }

/-- The call `mPhysicsActors.push_back(a)`. -/
@[simps]
def pushActor (s : PhysxSceneImpl) (actor : Ptr) : PhysxSceneImpl :=
  { s with mPhysicsActors := s.mPhysicsActors ++ [actor] }

/-- The two statements that end every successful creation:
`mScene->addActor(*a); mPhysicsActors.push_back(a);`. -/
def addAndRegister (actor : Ptr) (s : PhysxSceneImpl) : Option PhysxSceneImpl :=
  if s.mScene = 0 then none else
  some (((s.log (.addActor actor)).attach actor).pushActor actor)

/-- The `if (mSupportPVD)` statement of the macro `DEFAULT_RIGID_DYNAMIC`. -/
def visualizeIfPVD (actor : Ptr) (s : PhysxSceneImpl) : PhysxSceneImpl :=
  if s.mSupportPVD = true then s.log (.setActorFlagVisualization actor) else s

/-- The macro `DEFAULT_RIGID_DYNAMIC` (lines 44-49). -/
def defaultRigidDynamic (actor : Ptr) (s : PhysxSceneImpl) : PhysxSceneImpl :=
  (visualizeIfPVD actor (s.log (.setAngularDamping actor))).log (.clearKinematicFlag actor)

/-- The method `CreatePlane` (lines 193-203). The normal is built from
`zNormal, yNormal, zNormal`. -/
def CreatePlane (plane : Ptr) (xNormal yNormal zNormal distance : ℚ) (s : PhysxSceneImpl) :
    Option (Ptr × PhysxSceneImpl) :=
  let _ := xNormal
  (lockScene s).bind fun s =>
  if s.mPhysicsSDK = 0 ∨ s.mMaterial = 0 then none else
  let s : PhysxSceneImpl := s.log (.pxCreatePlane zNormal yNormal zNormal distance)
  if plane = 0 then some (0, s.log .unlockWrite) else
  (addAndRegister plane s).map fun s => (plane, s.log .unlockWrite)

/-- The width of `unsigned` and of `int`. -/
def uintBits : Nat := 32

/-- One run of the loop body of `CreateHeightField` (lines 213-214):
`int index = col + row*columns; samples[index].height = heightmap[index];`.
The sum is formed in `unsigned` arithmetic and converted to `int`, so a value
from `2^31` on is a negative index. A read of `heightmap` or a write of
`samples` outside its bounds has no defined result. The argument `samples` is
the content of the buffer, one height per sample. -/
def storeSample (heightmap : List Int) (columns row col : Nat) (samples : List Int) :
    Option (List Int) :=
  let index : Nat := (col + row * columns) % 2 ^ uintBits
  if 2 ^ (uintBits - 1) ≤ index then none else
  match heightmap[index]? with
  | none => none
  | some height =>
    if index < samples.length then some (samples.set index height) else none

/-- The scratch buffer of `CreateHeightField` (lines 206-218). `buffer` is the
pointer that `malloc` returned for `hfNumVerts = columns*rows` samples, the
product being formed in `unsigned` arithmetic; the code does not test it and
`memset` dereferences it. The buffer is zeroed and then filled by the two
nested loops; the result is its content. -/
def fillSamples (buffer : Ptr) (heightmap : List Int) (columns rows : Nat) :
    Option (List Int) :=
  let hfNumVerts : Nat := (columns * rows) % 2 ^ uintBits
  if buffer = 0 then none else
  (List.range rows).foldlM
    (fun samples row =>
      (List.range columns).foldlM
        (fun samples col => storeSample heightmap columns row col samples) samples)
    (List.replicate hfNumVerts 0)

/-- The method `CreateHeightField` (lines 205-253). It declares no scene lock.
`samples` is the pointer that `malloc` returned, and `heightField`, `hfActor`
and `hfShape` are the engine's replies. The buffer is filled before the first
engine call; it reaches the engine inside the heightfield description and is
freed on every exit (lines 230, 239, 246 and 251). Allocation and release are
not recorded in the trace. -/
def CreateHeightField (samples heightField hfActor hfShape : Ptr) (heightmap : List Int)
    (columns rows : Nat) (scale : Vector3) (s : PhysxSceneImpl) :
    Option (Ptr × PhysxSceneImpl) :=
  match fillSamples samples heightmap columns rows with
  | none => none
  | some _ =>
    if s.mCooking = 0 ∨ s.mPhysicsSDK = 0 then none else
    let s : PhysxSceneImpl := s.log (.createHeightField columns rows)
    if heightField = 0 then some (0, s) else
    let pose : PxTransform :=
      { p := ⟨-((columns : ℚ) / 2 * scale.X), 0, -((rows : ℚ) / 2 * scale.Z)⟩
        q := PxIdentity }
    let s : PhysxSceneImpl := s.log (.createRigidStatic pose)
    if hfActor = 0 then some (0, s) else
    if s.mMaterial = 0 then none else
    let s : PhysxSceneImpl :=
      s.log (.createExclusiveShape hfActor heightField scale.Y scale.Z scale.X)
    if hfShape = 0 then some (0, s) else
    (addAndRegister hfActor s).map fun s => (hfActor, s)

/-- The method `CreateBoxDynamic` (lines 255-266). -/
def CreateBoxDynamic (box : Ptr) (pos halfExtents : Vector3) (density : ℚ)
    (s : PhysxSceneImpl) : Option (Ptr × PhysxSceneImpl) :=
  (lockScene s).bind fun s =>
  if s.mPhysicsSDK = 0 ∨ s.mMaterial = 0 then none else
  let s : PhysxSceneImpl :=
    s.log (.pxCreateDynamic (PxTransform.at pos) (.box halfExtents) density)
  if box = 0 then some (0, s.log .unlockWrite) else
  let s : PhysxSceneImpl := defaultRigidDynamic box s
  (addAndRegister box s).map fun s => (box, s.log .unlockWrite)

/-- The method `CreateBoxKinematic` (lines 268-278). -/
def CreateBoxKinematic (box : Ptr) (pos halfExtents : Vector3) (density : ℚ)
    (s : PhysxSceneImpl) : Option (Ptr × PhysxSceneImpl) :=
  (lockScene s).bind fun s =>
  if s.mPhysicsSDK = 0 ∨ s.mMaterial = 0 then none else
  let s : PhysxSceneImpl :=
    s.log (.pxCreateKinematic (PxTransform.at pos) (.box halfExtents) density)
  if box = 0 then some (0, s.log .unlockWrite) else
  (addAndRegister box s).map fun s => (box, s.log .unlockWrite)

/-- The method `CreateBoxStatic` (lines 280-290). -/
def CreateBoxStatic (box : Ptr) (pos halfExtents : Vector3) (s : PhysxSceneImpl) :
    Option (Ptr × PhysxSceneImpl) :=
  (lockScene s).bind fun s =>
  if s.mPhysicsSDK = 0 ∨ s.mMaterial = 0 then none else
  let s : PhysxSceneImpl := s.log (.pxCreateStatic (PxTransform.at pos) (.box halfExtents))
  if box = 0 then some (0, s.log .unlockWrite) else
  (addAndRegister box s).map fun s => (box, s.log .unlockWrite)

/-- The method `CreateSphereDynamic` (lines 292-303). -/
def CreateSphereDynamic (sphere : Ptr) (pos : Vector3) (radius density : ℚ)
    (s : PhysxSceneImpl) : Option (Ptr × PhysxSceneImpl) :=
  (lockScene s).bind fun s =>
  if s.mPhysicsSDK = 0 ∨ s.mMaterial = 0 then none else
  let s : PhysxSceneImpl :=
    s.log (.pxCreateDynamic (PxTransform.at pos) (.sphere radius) density)
  if sphere = 0 then some (0, s.log .unlockWrite) else
  let s : PhysxSceneImpl := defaultRigidDynamic sphere s
  (addAndRegister sphere s).map fun s => (sphere, s.log .unlockWrite)

/-- The method `CreateSphereKinematic` (lines 305-315). -/
def CreateSphereKinematic (sphere : Ptr) (pos : Vector3) (radius density : ℚ)
    (s : PhysxSceneImpl) : Option (Ptr × PhysxSceneImpl) :=
  (lockScene s).bind fun s =>
  if s.mPhysicsSDK = 0 ∨ s.mMaterial = 0 then none else
  let s : PhysxSceneImpl :=
    s.log (.pxCreateKinematic (PxTransform.at pos) (.sphere radius) density)
  if sphere = 0 then some (0, s.log .unlockWrite) else
  (addAndRegister sphere s).map fun s => (sphere, s.log .unlockWrite)

/-- The method `CreateSphereStatic` (lines 317-327). -/
def CreateSphereStatic (sphere : Ptr) (pos : Vector3) (radius : ℚ) (s : PhysxSceneImpl) :
    Option (Ptr × PhysxSceneImpl) :=
  (lockScene s).bind fun s =>
  if s.mPhysicsSDK = 0 ∨ s.mMaterial = 0 then none else
  let s : PhysxSceneImpl := s.log (.pxCreateStatic (PxTransform.at pos) (.sphere radius))
  if sphere = 0 then some (0, s.log .unlockWrite) else
  (addAndRegister sphere s).map fun s => (sphere, s.log .unlockWrite)

/-- The method `CreateCapsuleDynamic` (lines 329-340). -/
def CreateCapsuleDynamic (capsule : Ptr) (pos : Vector3) (radius halfHeight density : ℚ)
    (s : PhysxSceneImpl) : Option (Ptr × PhysxSceneImpl) :=
  (lockScene s).bind fun s =>
  if s.mPhysicsSDK = 0 ∨ s.mMaterial = 0 then none else
  let s : PhysxSceneImpl :=
    s.log (.pxCreateDynamic (PxTransform.at pos) (.capsule radius halfHeight) density)
  if capsule = 0 then some (0, s.log .unlockWrite) else
  let s : PhysxSceneImpl := defaultRigidDynamic capsule s
  (addAndRegister capsule s).map fun s => (capsule, s.log .unlockWrite)

/-- The method `CreateCapsuleKinematic` (lines 342-352). -/
def CreateCapsuleKinematic (capsule : Ptr) (pos : Vector3) (radius halfHeight density : ℚ)
    (s : PhysxSceneImpl) : Option (Ptr × PhysxSceneImpl) :=
  (lockScene s).bind fun s =>
  if s.mPhysicsSDK = 0 ∨ s.mMaterial = 0 then none else
  let s : PhysxSceneImpl :=
    s.log (.pxCreateKinematic (PxTransform.at pos) (.capsule radius halfHeight) density)
  if capsule = 0 then some (0, s.log .unlockWrite) else
  (addAndRegister capsule s).map fun s => (capsule, s.log .unlockWrite)

/-- The method `CreateCapsuleStatic` (lines 354-364). -/
def CreateCapsuleStatic (capsule : Ptr) (pos : Vector3) (radius halfHeight : ℚ)
    (s : PhysxSceneImpl) : Option (Ptr × PhysxSceneImpl) :=
  (lockScene s).bind fun s =>
  if s.mPhysicsSDK = 0 ∨ s.mMaterial = 0 then none else
  let s : PhysxSceneImpl :=
    s.log (.pxCreateStatic (PxTransform.at pos) (.capsule radius halfHeight))
  if capsule = 0 then some (0, s.log .unlockWrite) else
  (addAndRegister capsule s).map fun s => (capsule, s.log .unlockWrite)

/-- The method `CreateMeshKinematic` (lines 366-406). `cookOk` is the result
of `cookTriangleMesh`, `triangleMesh` that of `createTriangleMesh` and `mesh`
that of `PxCreateKinematic`. -/
def CreateMeshKinematic (cookOk : Bool) (triangleMesh mesh : Ptr) (pos scale : Vector3)
    (vb : List ℚ) (ib : List Nat) (density : ℚ) (s : PhysxSceneImpl) :
    Option (Ptr × PhysxSceneImpl) :=
  (lockScene s).bind fun s =>
  if s.mCooking = 0 then none else
  let s : PhysxSceneImpl :=
    s.log (.cookTriangleMesh (vb.length / 3 % 2 ^ uintBits) (ib.length / 3 % 2 ^ uintBits))
  if cookOk = false then some (0, s.log .unlockWrite) else
  if s.mPhysicsSDK = 0 then none else
  let s : PhysxSceneImpl := s.log .createTriangleMesh
  if triangleMesh ≠ 0 then
    if s.mMaterial = 0 then none else
    let s : PhysxSceneImpl :=
      s.log (.pxCreateKinematic (PxTransform.at pos) (.triangleMesh triangleMesh scale) density)
    if mesh = 0 then some (0, s.log .unlockWrite) else
    (addAndRegister mesh s).map fun s => (mesh, s.log .unlockWrite)
  else
    some (0, s.log .unlockWrite)

/-- The method `CreateMeshStatic` (lines 408-448). `cookOk` is the result of
`cookTriangleMesh`, `triangleMesh` that of `createTriangleMesh` and `mesh` that
of `PxCreateStatic`. -/
def CreateMeshStatic (cookOk : Bool) (triangleMesh mesh : Ptr) (pos scale : Vector3)
    (vb : List ℚ) (ib : List Nat) (s : PhysxSceneImpl) : Option (Ptr × PhysxSceneImpl) :=
  (lockScene s).bind fun s =>
  if s.mCooking = 0 then none else
  let s : PhysxSceneImpl :=
    s.log (.cookTriangleMesh (vb.length / 3 % 2 ^ uintBits) (ib.length / 3 % 2 ^ uintBits))
  if cookOk = false then some (0, s.log .unlockWrite) else
  if s.mPhysicsSDK = 0 then none else
  let s : PhysxSceneImpl := s.log .createTriangleMesh
  if triangleMesh ≠ 0 then
    if s.mMaterial = 0 then none else
    let s : PhysxSceneImpl :=
      s.log (.pxCreateStatic (PxTransform.at pos) (.triangleMesh triangleMesh scale))
    if mesh = 0 then some (0, s.log .unlockWrite) else
    (addAndRegister mesh s).map fun s => (mesh, s.log .unlockWrite)
  else
    some (0, s.log .unlockWrite)

/-- The method `SetGlobalPostion` (lines 481-487); `actor->getGlobalPose()`
dereferences `actor`. -/
def SetGlobalPostion (actor : Ptr) (pos : Vector3) (s : PhysxSceneImpl) :
    Option PhysxSceneImpl :=
  if actor = 0 then none else
  some ((s.log (.getGlobalPose actor)).log (.setGlobalPosition actor pos))

/-- The method `SetGlobalRotate` (lines 489-496); `actor->getGlobalPose()`
dereferences `actor`. -/
def SetGlobalRotate (actor : Ptr) (rotate : Quat) (s : PhysxSceneImpl) :
    Option PhysxSceneImpl :=
  if actor = 0 then none else
  some ((s.log (.getGlobalPose actor)).log (.setGlobalRotation actor rotate))

/-- What the engine answers to the calls of one creation operation, and in
`samples` what `malloc` answers to `CreateHeightField`. An operation reads only
the replies of the calls it makes. -/
structure EngineReplies where
  samples : Ptr
  cookOk : Bool
  triangleMesh : Ptr
  heightField : Ptr
  shape : Ptr
  actor : Ptr
  deriving DecidableEq

/-- The creation operations of `PhysxSceneImpl`, with their arguments. -/
inductive CreateOp where
  | plane (xNormal yNormal zNormal distance : ℚ)
  | heightField (heightmap : List Int) (columns rows : Nat) (scale : Vector3)
  | boxDynamic (pos halfExtents : Vector3) (density : ℚ)
  | boxKinematic (pos halfExtents : Vector3) (density : ℚ)
  | boxStatic (pos halfExtents : Vector3)
  | sphereDynamic (pos : Vector3) (radius density : ℚ)
  | sphereKinematic (pos : Vector3) (radius density : ℚ)
  | sphereStatic (pos : Vector3) (radius : ℚ)
  | capsuleDynamic (pos : Vector3) (radius halfHeight density : ℚ)
  | capsuleKinematic (pos : Vector3) (radius halfHeight density : ℚ)
  | capsuleStatic (pos : Vector3) (radius halfHeight : ℚ)
  | meshKinematic (pos scale : Vector3) (vb : List ℚ) (ib : List Nat) (density : ℚ)
  | meshStatic (pos scale : Vector3) (vb : List ℚ) (ib : List Nat)

/-- Run one creation operation against the engine replies `r`. -/
def create (r : EngineReplies) : CreateOp → PhysxSceneImpl → Option (Ptr × PhysxSceneImpl)
  | .plane x y z d => CreatePlane r.actor x y z d
  | .heightField hm c rw sc =>
    CreateHeightField r.samples r.heightField r.actor r.shape hm c rw sc
  | .boxDynamic p h d => CreateBoxDynamic r.actor p h d
  | .boxKinematic p h d => CreateBoxKinematic r.actor p h d
  | .boxStatic p h => CreateBoxStatic r.actor p h
  | .sphereDynamic p rad d => CreateSphereDynamic r.actor p rad d
  | .sphereKinematic p rad d => CreateSphereKinematic r.actor p rad d
  | .sphereStatic p rad => CreateSphereStatic r.actor p rad
  | .capsuleDynamic p rad hh d => CreateCapsuleDynamic r.actor p rad hh d
  | .capsuleKinematic p rad hh d => CreateCapsuleKinematic r.actor p rad hh d
  | .capsuleStatic p rad hh => CreateCapsuleStatic r.actor p rad hh
  | .meshKinematic p sc vb ib d => CreateMeshKinematic r.cookOk r.triangleMesh r.actor p sc vb ib d
  | .meshStatic p sc vb ib => CreateMeshStatic r.cookOk r.triangleMesh r.actor p sc vb ib

/-- The engine fails to create what the operation asks for: the actor, and
for a mesh also the cooked data or the triangle mesh, and for a heightfield
also the heightfield or its shape. -/
def engineFails (r : EngineReplies) : CreateOp → Prop
  | .heightField _ _ _ _ => r.heightField = 0 ∨ r.actor = 0 ∨ r.shape = 0
  | .meshKinematic _ _ _ _ _ => r.cookOk = false ∨ r.triangleMesh = 0 ∨ r.actor = 0
  | .meshStatic _ _ _ _ => r.cookOk = false ∨ r.triangleMesh = 0 ∨ r.actor = 0
  | _ => r.actor = 0

/-- What a creation operation needs of its input besides an initialized scene.
For a heightfield: the scratch buffer was allocated, `columns * rows` does not
exceed `2^31`, so that the product does not wrap and every `int index` is
non-negative, and the heightmap holds a sample for every point of the grid.
The other operations need nothing. -/
def inputOk (r : EngineReplies) : CreateOp → Prop
  | .heightField heightmap columns rows _ =>
    r.samples ≠ 0 ∧ columns * rows ≤ 2 ^ 31 ∧ columns * rows ≤ heightmap.length
  | _ => True

/-- A scene on which `Init` has succeeded: the flag is set and the resources
that `Init` creates are present. -/
def Initialized (s : PhysxSceneImpl) : Prop :=
  s.mInit = true ∧ s.mFoundation ≠ 0 ∧ s.mPhysicsSDK ≠ 0 ∧ s.mMaterial ≠ 0 ∧
    s.mCooking ≠ 0 ∧ s.mCpuDispatcher ≠ 0 ∧ s.mScene ≠ 0

instance (s : PhysxSceneImpl) : Decidable (Initialized s) := by
  unfold Initialized; infer_instance

/-! ### Scene descriptions

`scene_info_mgr.h` is not among the sources. The element types below have the
fields that `CreateScene` reads. -/

/-- An element of `SceneInfo::Terrains`. Over the integers `d - 1` is what
line 516 divides by; for `d = 1` the quotient of the code is infinite and has
no rational counterpart. -/
structure TerrainInfo where
  data : List Int
  d : Nat
  Size : Vector3
  Postion : Vector3
  Rotate : Quat
  deriving DecidableEq

/-- An element of `SceneInfo::Boxs`. -/
structure BoxInfo where
  Postion : Vector3
  Half : Vector3
  Rotate : Quat
  deriving DecidableEq

/-- An element of `SceneInfo::Capsules`. -/
structure CapsuleInfo where
  Postion : Vector3
  radius : ℚ
  halfHeight : ℚ
  Rotate : Quat
  deriving DecidableEq

/-- An element of `SceneInfo::Meshs`. -/
structure MeshInfo where
  Postion : Vector3
  Scale : Vector3
  vb : List ℚ
  ib : List Nat
  Rotate : Quat
  deriving DecidableEq

/-- An element of `SceneInfo::Spheres`. -/
structure SphereInfo where
  Postion : Vector3
  radius : ℚ
  Rotate : Quat
  deriving DecidableEq

/-- The scene description `SceneInfo`. -/
structure SceneInfo where
  Terrains : List TerrainInfo
  Boxs : List BoxInfo
  Capsules : List CapsuleInfo
  Meshs : List MeshInfo
  Spheres : List SphereInfo
  deriving DecidableEq

/-- Modelled from the spec: the scene description cache `gSceneInfoMgr`, whose
class is declared in `scene_info_mgr.h`, which is not among the sources. It is
keyed by source identifier and retains one description per key. -/
abbrev SceneInfoMgr := List (String × SceneInfo)

/-- Modelled from the spec: `Get(key) -> description|absent`. -/
def SceneInfoMgr.Get (mgr : SceneInfoMgr) (path : String) : Option SceneInfo :=
  mgr.lookup path

/-- Modelled from the spec: `Set(key, description)`; for a given key at most
one description is ever retained, so a key that is present keeps its value. -/
def SceneInfoMgr.Set (mgr : SceneInfoMgr) (path : String) (info : SceneInfo) : SceneInfoMgr :=
  match mgr.lookup path with
  | some _ => mgr
  | none => mgr ++ [(path, info)]

/-- What the engine answers during one `CreateScene`: the replies for the
`i`-th element of each list. -/
structure SceneReplies where
  terrain : Nat → EngineReplies
  box : Nat → Ptr
  capsule : Nat → Ptr
  mesh : Nat → EngineReplies
  sphere : Nat → Ptr

/-- A loop `for (size_t i = 0; i < xs.size(); i++)` over the elements of a
list, starting at index `i`. -/
def forEachFrom {α : Type} (body : Nat → α → PhysxSceneImpl → Option PhysxSceneImpl) :
    Nat → List α → PhysxSceneImpl → Option PhysxSceneImpl
  | _, [], s => some s
  | i, x :: xs, s => (body i x s).bind (forEachFrom body (i + 1) xs)

/-- The first block of `CreateScene` (lines 500-510): ask the cache, and on a
miss run the loader `load` and store a description that loaded. -/
def loadOrReuse (load : String → Option SceneInfo) (path : String) (mgr : SceneInfoMgr)
    (s : PhysxSceneImpl) : SceneInfoMgr × PhysxSceneImpl × Option SceneInfo :=
  let s : PhysxSceneImpl := s.log (.cacheGet path)
  match mgr.Get path with
  | some sceneInfo => (mgr, s, some sceneInfo)
  | none =>
    let s : PhysxSceneImpl := s.log (.load path)
    match load path with
    | some sceneInfo => (mgr.Set path sceneInfo, s.log (.cacheSet path), some sceneInfo)
    | none => (mgr, s, none)

/-- The five loops of `CreateScene` (lines 513-543). No loop tests the actor
it gets back before it passes it on. -/
def instantiate (eng : SceneReplies) (sceneInfo : SceneInfo) (s : PhysxSceneImpl) :
    Option PhysxSceneImpl :=
  (forEachFrom (fun i (info : TerrainInfo) s =>
      (CreateHeightField (eng.terrain i).samples (eng.terrain i).heightField
        (eng.terrain i).actor (eng.terrain i).shape info.data info.d info.d
        ⟨info.Size.X / ((info.d : ℚ) - 1), info.Size.Z / ((info.d : ℚ) - 1), 1⟩ s).bind
        fun (actor, s) => (SetGlobalPostion actor info.Postion s).bind
          (SetGlobalRotate actor info.Rotate)) 0 sceneInfo.Terrains s).bind fun s =>
  (forEachFrom (fun i (info : BoxInfo) s =>
      (CreateBoxStatic (eng.box i) info.Postion info.Half s).bind
        fun (actor, s) => SetGlobalRotate actor info.Rotate s) 0 sceneInfo.Boxs s).bind fun s =>
  (forEachFrom (fun i (info : CapsuleInfo) s =>
      (CreateCapsuleStatic (eng.capsule i) info.Postion info.radius info.halfHeight s).bind
        fun (actor, s) => SetGlobalRotate actor info.Rotate s) 0 sceneInfo.Capsules s).bind
  fun s =>
  (forEachFrom (fun i (info : MeshInfo) s =>
      (CreateMeshStatic (eng.mesh i).cookOk (eng.mesh i).triangleMesh (eng.mesh i).actor
        info.Postion info.Scale info.vb info.ib s).bind
        fun (actor, s) => SetGlobalRotate actor info.Rotate s) 0 sceneInfo.Meshs s).bind fun s =>
  forEachFrom (fun i (info : SphereInfo) s =>
      (CreateSphereStatic (eng.sphere i) info.Postion info.radius s).bind
        fun (actor, s) => SetGlobalRotate actor info.Rotate s) 0 sceneInfo.Spheres s

/-- The method `CreateScene` (lines 499-545). The cache is process-wide, so it
is passed in and returned next to the scene. -/
def CreateScene (load : String → Option SceneInfo) (eng : SceneReplies) (path : String)
    (mgr : SceneInfoMgr) (s : PhysxSceneImpl) : Option (SceneInfoMgr × PhysxSceneImpl) :=
  match loadOrReuse load path mgr s with
  | (mgr, s, some sceneInfo) => (instantiate eng sceneInfo s).map fun s => (mgr, s)
  | (mgr, s, none) => some (mgr, s)

/-! ### Concurrent calls of `Init`

`mInit` is an atomic flag. A thread inside `Init` first loads it (line 75) and,
when it has read `false`, runs the guarded block, which stores `true` at its
end (line 151). Here the load is one atomic step of a thread and the guarded
block another; a schedule says which thread takes the next step. Every schedule
of these steps is an execution of the code, in which the blocks happen not to
be interleaved any further. -/

/-- Where a thread stands inside its call of `Init`: before the load of
`mInit`, past the guard with the block still to run, or returned. -/
inductive InitPc where
  | atLoad
  | inBlock
  | returned (result : Bool)
  deriving DecidableEq

/-- The arguments of one call of `Init`, with the engine's replies to it. -/
structure InitCall where
  replies : InitReplies
  timestep : ℚ
  supportPVD : Bool

/-- One step of a thread that executes `Init`: the load and test of `mInit`
(line 75), or the guarded block (lines 76-152) followed by the `return`. A
thread that has returned stays where it is. -/
def stepInit (c : InitCall) : InitPc → PhysxSceneImpl → Option (InitPc × PhysxSceneImpl)
  | .atLoad, s => some (if s.mInit = false then .inBlock else .returned true, s)
  | .inBlock, s =>
    (initBody c.replies c.timestep c.supportPVD s).map fun out => (.returned out.1, out.2)
  | .returned b, s => some (.returned b, s)

/-- The two threads of a schedule. -/
inductive Thread where
  | first
  | second
  deriving DecidableEq

/-- Two threads inside `Init` on one scene. -/
structure TwoInits where
  pc1 : InitPc
  pc2 : InitPc
  scene : PhysxSceneImpl

/-- Run the two calls `c1` and `c2` under a schedule. -/
def runSchedule (c1 c2 : InitCall) : List Thread → TwoInits → Option TwoInits
  | [], st => some st
  | .first :: rest, st =>
    (stepInit c1 st.pc1 st.scene).bind fun out =>
      runSchedule c1 c2 rest { st with pc1 := out.1, scene := out.2 }
  | .second :: rest, st =>
    (stepInit c2 st.pc2 st.scene).bind fun out =>
      runSchedule c1 c2 rest { st with pc2 := out.1, scene := out.2 }

/-- The number of bootstraps recorded in a trace: each one starts with
`PxCreateFoundation`. -/
def bootstraps (trace : List Call) : Nat :=
  trace.count Call.createFoundation

/-! ### Reachable states -/

/-- The states a scene can be in: the constructor gives the first, and `Init`,
`release`, `Update` and, while the flag `mInit` is set, the creation operations
lead from one to the next whenever they return. -/
inductive Reachable : PhysxSceneImpl → Prop where
  | construct (now : Nat) (material : Ptr) : Reachable (PhysxSceneImpl.new now material)
  | init {s s' : PhysxSceneImpl} (r : InitReplies) (timestep : ℚ) (supportPVD : Bool)
      (b : Bool) :
      Reachable s → Init r timestep supportPVD s = some (b, s') → Reachable s'
  | release {s s' : PhysxSceneImpl} : Reachable s → s.release = some s' → Reachable s'
  | update {s s' : PhysxSceneImpl} (fuel nowTime : Nat) :
      Reachable s → Update fuel nowTime s = some s' → Reachable s'
  | create {s s' : PhysxSceneImpl} (r : EngineReplies) (op : CreateOp) (a : Ptr) :
      Reachable s → s.mInit = true → create r op s = some (a, s') → Reachable s'

/-- The lifecycle invariant: a set flag comes with all six resources, an unset
flag with an empty registry, and the registry never holds the null pointer. -/
def LifecycleInvariant (s : PhysxSceneImpl) : Prop :=
  (s.mInit = true →
    s.mFoundation ≠ 0 ∧ s.mPhysicsSDK ≠ 0 ∧ s.mMaterial ≠ 0 ∧ s.mCooking ≠ 0 ∧
      s.mCpuDispatcher ≠ 0 ∧ s.mScene ≠ 0) ∧
  (s.mInit = false → s.mPhysicsActors = []) ∧
  0 ∉ s.mPhysicsActors

/-- The outcome of a creation operation run on `s` that returns, leaves the
flag and the six resource fields as they are in `s`, and leaves the registry
as it is when it returns the null pointer and appends the returned actor to it
otherwise. -/
def CreationFrame (s : PhysxSceneImpl) : Option (Ptr × PhysxSceneImpl) → Prop
  | none => False
  | some (a, s') =>
    s'.mInit = s.mInit ∧ s'.mFoundation = s.mFoundation ∧ s'.mPhysicsSDK = s.mPhysicsSDK ∧
    s'.mMaterial = s.mMaterial ∧ s'.mCooking = s.mCooking ∧
    s'.mCpuDispatcher = s.mCpuDispatcher ∧ s'.mScene = s.mScene ∧
    s'.mPhysicsActors = if a = 0 then s.mPhysicsActors else s.mPhysicsActors ++ [a]

/-- An outcome of `Init` whose resulting scene, on success and on failure
alike, satisfies `P`. -/
def OutcomeSatisfies (P : PhysxSceneImpl → Prop) (o : Option (Bool × PhysxSceneImpl)) :
    Prop :=
  ∀ (b : Bool) (s' : PhysxSceneImpl), o = some (b, s') → P s'

/-- The calls added to the trace between the state `s` and the later state
`s'`. -/
def callsSince (s s' : PhysxSceneImpl) : List Call :=
  s'.trace.drop s.trace.length

/-- The outcome of a creation operation run on `s` that returns and whose
calls are bracketed by the write lock: the first call takes it, the last gives
it back, and it is neither taken nor given back in between. -/
def HoldsLock (s : PhysxSceneImpl) : Option (Ptr × PhysxSceneImpl) → Prop
  | none => False
  | some (_, s') =>
    (callsSince s s').head? = some Call.lockWrite ∧
    (callsSince s s').getLast? = some Call.unlockWrite ∧
    (callsSince s s').count Call.lockWrite = 1 ∧
    (callsSince s s').count Call.unlockWrite = 1

/-- An outcome of `Init` which, when it reports failure, leaves the flag
`mInit` unset. -/
def FailureLeavesFlagUnset (o : Option (Bool × PhysxSceneImpl)) : Prop :=
  ∀ s' : PhysxSceneImpl, o = some (false, s') → s'.mInit = false

/-- The outcome of a creation operation run on `s`, where `fails` says that
the engine failed and `actor` is the actor it would otherwise create: the
operation returns; on failure the null pointer comes back and registry and
attached actors are those of `s`; otherwise `actor` comes back, is not null,
and is appended to both. -/
def RegistersOrFails (s : PhysxSceneImpl) (fails : Prop) (actor : Ptr) :
    Option (Ptr × PhysxSceneImpl) → Prop
  | none => False
  | some (a, s') =>
    (fails → a = 0 ∧ s'.mPhysicsActors = s.mPhysicsActors ∧ s'.attached = s.attached) ∧
    (¬ fails →
      a = actor ∧ a ≠ 0 ∧ s'.mPhysicsActors = s.mPhysicsActors ++ [a] ∧
        s'.attached = s.attached ++ [a])

/-- An outcome of `Init` whose success establishes `P` of the resulting
scene. -/
def SuccessEstablishes (P : PhysxSceneImpl → Prop) (o : Option (Bool × PhysxSceneImpl)) :
    Prop :=
  ∀ s' : PhysxSceneImpl, o = some (true, s') → P s'

/-! ### Sample inputs -/

/-- Engine replies with which every call of `Init` succeeds. -/
def okReplies : InitReplies :=
  { foundation := 1, physics := 2, extensionsOk := true, material := 3, cooking := 4,
    cpuDispatcher := 5, scene := 6, pvdClient := 7 }

/-- Engine replies to a second bootstrap, with pointers of their own. -/
def okReplies2 : InitReplies :=
  { foundation := 21, physics := 22, extensionsOk := true, material := 23, cooking := 24,
    cpuDispatcher := 25, scene := 26, pvdClient := 27 }

/-- The scene constructed at time `0` and initialised with timestep `1/2` and
no debug transport, against `okReplies`. -/
def readyScene : PhysxSceneImpl :=
  { mFoundation := 1
    mPhysicsSDK := 2
    mCooking := 4
    mScene := 6
    mCpuDispatcher := 5
    mMaterial := 3
    mInit := true
    mTimestep := 1 / 2
    mSupportPVD := false
    mPreUpdateTime := 0
    mPhysicsActors := []
    attached := []
    trace := [.createFoundation, .createPhysics, .createMaterial, .createCooking,
      .createCpuDispatcher, .createScene] }

/-- The scene `readyScene` after two actors were created and registered. -/
def sceneWithActors : PhysxSceneImpl :=
  { readyScene with mPhysicsActors := [8, 9], attached := [8, 9] }

/-- Engine replies with which every call of a creation operation succeeds and
the actor created is `13`. -/
def okCreate : EngineReplies :=
  { samples := 9, cookOk := true, triangleMesh := 10, heightField := 11, shape := 12,
    actor := 13 }

/-- A description with one box and one sphere. -/
def boxAndSphere : SceneInfo :=
  { Terrains := []
    Boxs := [{ Postion := ⟨0, 0, 0⟩, Half := ⟨1, 1, 1⟩, Rotate := PxIdentity }]
    Capsules := []
    Meshs := []
    Spheres := [{ Postion := ⟨0, 5, 0⟩, radius := 1, Rotate := PxIdentity }] }

/-- An engine that fails to create the box of a description and creates
everything else. -/
def boxFails : SceneReplies :=
  { terrain := fun _ => okCreate
    box := fun _ => 0
    capsule := fun _ => 13
    mesh := fun _ => okCreate
    sphere := fun _ => 14 }

/-- The calls of `release` that tear an engine resource down. -/
def isTeardown : Call → Bool
  | .releaseScene => true
  | .releaseCpuDispatcher => true
  | .releaseCooking => true
  | .pvdClose => true
  | .releasePhysics => true
  | .releaseFoundation => true
  | _ => false

/-! # Theorems -/

/-! ## The stepping loop -/

theorem logAll_nil (s : PhysxSceneImpl) : s.logAll [] = s := by
  simp [logAll]

theorem log_log_logAll (s : PhysxSceneImpl) (dt : ℚ) (steps : List ℚ) :
    ((s.log (.simulate dt)).log .fetchResults).logAll (stepCalls steps)
      = s.logAll (stepCalls (dt :: steps)) := by
  simp [log, logAll, stepCalls, List.flatMap_cons]

theorem simulateLoop_done (timestep : ℚ) (fuel : Nat) (dtime : ℚ) (s : PhysxSceneImpl)
    (h : dtime ≤ 0) : simulateLoop timestep fuel dtime s = some s := by
  unfold simulateLoop
  simp [not_lt.mpr h]

theorem simulateLoop_step (timestep : ℚ) (fuel : Nat) (dtime : ℚ) (s : PhysxSceneImpl)
    (h : 0 < dtime) :
    simulateLoop timestep (fuel + 1) dtime s
      = simulateLoop timestep fuel (dtime - min dtime timestep)
          ((s.log (.simulate (min dtime timestep))).log .fetchResults) := by
  have hdt : (if dtime ≥ timestep then timestep else dtime) = min dtime timestep := by
    by_cases hc : timestep ≤ dtime
    · simp [hc, min_eq_right hc]
    · have hc2 : dtime ≤ timestep := le_of_lt (not_le.mp hc)
      simp [hc, min_eq_left hc2]
  conv_lhs => unfold simulateLoop
  simp only [gt_iff_lt, h, if_true, hdt]

theorem ceil_div_sub_self (timestep dtime : ℚ) (hts : 0 < timestep) (h : timestep ≤ dtime) :
    ⌈(dtime - timestep) / timestep⌉₊ + 1 = ⌈dtime / timestep⌉₊ := by
  have h1 : (dtime - timestep) / timestep = dtime / timestep - 1 := by
    field_simp
  have h2 : (0 : ℚ) ≤ dtime / timestep - 1 := by
    rw [sub_nonneg, le_div_iff₀ hts]
    simpa using h
  rw [h1, ← Nat.ceil_add_one h2]
  simp

theorem ceil_div_lt_self (timestep dtime : ℚ) (h0 : 0 < dtime) (h : dtime < timestep) :
    ⌈dtime / timestep⌉₊ = 1 := by
  have hts : 0 < timestep := lt_trans h0 h
  rw [Nat.ceil_eq_iff (by norm_num)]
  constructor
  · simpa using div_pos h0 hts
  · simpa using (div_le_one hts).mpr (le_of_lt h)

theorem simulateLoop_spec (timestep : ℚ) (hts : 0 < timestep) :
    ∀ (n : Nat) (dtime : ℚ) (s : PhysxSceneImpl) (fuel : Nat),
      ⌈dtime / timestep⌉₊ = n → n ≤ fuel →
      ∃ steps : List ℚ,
        simulateLoop timestep fuel dtime s = some (s.logAll (stepCalls steps)) ∧
        steps.length = n ∧ (0 ≤ dtime → steps.sum = dtime) ∧
        StepsFollowMin timestep dtime steps := by
  intro n
  induction n with
  | zero =>
    intro dtime s fuel hn _
    have hd : dtime ≤ 0 := by
      have := Nat.ceil_eq_zero.mp hn
      by_contra hc
      have hpos : 0 < dtime / timestep := div_pos (not_le.mp hc) hts
      exact absurd this (not_le.mpr hpos)
    refine ⟨[], ?_, rfl, ?_, trivial⟩
    · rw [simulateLoop_done timestep fuel dtime s hd]
      simp [stepCalls, logAll]
    · intro h0
      simp [le_antisymm hd h0]
  | succ n ih =>
    intro dtime s fuel hn hfuel
    have hpos : 0 < dtime := by
      by_contra hc
      have hle : dtime / timestep ≤ 0 :=
        div_nonpos_of_nonpos_of_nonneg (not_lt.mp hc) (le_of_lt hts)
      have := Nat.ceil_eq_zero.mpr hle
      omega
    obtain ⟨fuel, rfl⟩ : ∃ k, fuel = k + 1 := ⟨fuel - 1, by omega⟩
    have hrest : ⌈(dtime - min dtime timestep) / timestep⌉₊ = n := by
      by_cases hc : timestep ≤ dtime
      · rw [min_eq_right hc]
        have := ceil_div_sub_self timestep dtime hts hc
        omega
      · have hc2 : dtime < timestep := not_le.mp hc
        have h1 := ceil_div_lt_self timestep dtime hpos hc2
        rw [min_eq_left (le_of_lt hc2)]
        simp only [sub_self, zero_div, Nat.ceil_zero]
        omega
    obtain ⟨steps, hrun, hlen, hsum, hmin⟩ :=
      ih (dtime - min dtime timestep)
        ((s.log (.simulate (min dtime timestep))).log .fetchResults) fuel hrest (by omega)
    refine ⟨min dtime timestep :: steps, ?_, by simp [hlen], ?_, ⟨rfl, hmin⟩⟩
    · rw [simulateLoop_step timestep fuel dtime s hpos, hrun, log_log_logAll]
    · intro _
      have hnn : 0 ≤ dtime - min dtime timestep := sub_nonneg.mpr (min_le_left _ _)
      rw [List.sum_cons, hsum hnn]
      ring

theorem stepsFollowMin_index (timestep : ℚ) :
    ∀ (steps : List ℚ) (dtime : ℚ), StepsFollowMin timestep dtime steps →
      ∀ i, i < steps.length →
        steps[i]? = some (min (dtime - (steps.take i).sum) timestep) := by
  intro steps
  induction steps with
  | nil => intro _ _ i hi; simp at hi
  | cons dt rest ih =>
    intro dtime h i hi
    obtain ⟨hdt, hrest⟩ := h
    cases i with
    | zero => simp [hdt]
    | succ i =>
      have := ih (dtime - dt) hrest i (by simpa using hi)
      simp only [List.getElem?_cons_succ, List.take_succ_cons, List.sum_cons, this]
      congr 2
      ring

theorem Init_okReplies :
    Init okReplies (1 / 2) false (PhysxSceneImpl.new 0 0) = some (true, readyScene) := by
  rfl

theorem Update_steps_aux (timestep T : ℚ) (hts : 0 < timestep) (hT : 0 ≤ T) (fuel : Nat)
    (hfuel : ⌈T / timestep⌉₊ ≤ fuel) (s : PhysxSceneImpl) :
    ∃ steps : List ℚ,
      simulateLoop timestep fuel T s = some (s.logAll (stepCalls steps)) ∧
      (∀ i, i < steps.length →
        steps[i]? = some (min (T - (steps.take i).sum) timestep)) ∧
      steps.sum = T ∧ steps.length = ⌈T / timestep⌉₊ := by
  obtain ⟨steps, hrun, hlen, hsum, hmin⟩ :=
    simulateLoop_spec timestep hts _ T s fuel rfl hfuel
  exact ⟨steps, hrun, stepsFollowMin_index timestep steps T hmin, hsum hT, hlen⟩

theorem elapsedSeconds_nonneg (a b : Nat) : 0 ≤ elapsedSeconds a b := by
  unfold elapsedSeconds
  positivity

/-- C1: on a scene whose simulation context is present and whose timestep is
positive, the stepping loop run on any elapsed time `T ≥ 0`, and `Update` run
at any clock value, issue `simulate`+`fetchResults` steps where each step is
`min(remaining, timestep)`, the steps sum to the elapsed time, and there are
`⌈T / timestep⌉` of them. -/
theorem Update_decomposes_elapsed_time (s : PhysxSceneImpl) (nowTime : Nat)
    (hs : s.mScene ≠ 0) (hts : 0 < s.mTimestep) :
    (∀ (T : ℚ) (fuel : Nat), 0 ≤ T → ⌈T / s.mTimestep⌉₊ ≤ fuel →
      ∃ steps : List ℚ,
        simulateLoop s.mTimestep fuel T s = some (s.logAll (stepCalls steps)) ∧
        (∀ i, i < steps.length →
          steps[i]? = some (min (T - (steps.take i).sum) s.mTimestep)) ∧
        steps.sum = T ∧ steps.length = ⌈T / s.mTimestep⌉₊) ∧
    (∀ fuel : Nat, ⌈elapsedSeconds nowTime s.mPreUpdateTime / s.mTimestep⌉₊ ≤ fuel →
      ∃ steps : List ℚ,
        Update fuel nowTime s
          = some (PhysxSceneImpl.logAll { s with mPreUpdateTime := nowTime % 2 ^ ulongBits }
              (stepCalls steps)) ∧
        (∀ i, i < steps.length →
          steps[i]? = some (min (elapsedSeconds nowTime s.mPreUpdateTime
            - (steps.take i).sum) s.mTimestep)) ∧
        steps.sum = elapsedSeconds nowTime s.mPreUpdateTime ∧
        steps.length = ⌈elapsedSeconds nowTime s.mPreUpdateTime / s.mTimestep⌉₊) := by
  refine ⟨fun T fuel hT hfuel => Update_steps_aux _ T hts hT fuel hfuel s, ?_⟩
  intro fuel hfuel
  obtain ⟨steps, hrun, h1, h2, h3⟩ :=
    Update_steps_aux s.mTimestep _ hts (elapsedSeconds_nonneg nowTime s.mPreUpdateTime)
      fuel hfuel { s with mPreUpdateTime := nowTime % 2 ^ ulongBits }
  refine ⟨steps, ?_, h1, h2, h3⟩
  unfold Update
  simp only [hs, ne_eq, not_false_eq_true, if_true]
  exact hrun

theorem elapsedSeconds_sample : elapsedSeconds 1250 0 = 5 / 4 := by
  norm_num [elapsedSeconds, ulongSub, ulongBits]

/-- C1 at a concrete input: 1250 ms at timestep 1/2 s are three steps. -/
theorem Update_decomposes_elapsed_time_witness :
    (readyScene.mScene ≠ 0 ∧ 0 < readyScene.mTimestep) ∧
    ∃ steps : List ℚ,
      Update 3 1250 readyScene
        = some (PhysxSceneImpl.logAll { readyScene with mPreUpdateTime := 1250 % 2 ^ ulongBits }
            (stepCalls steps)) ∧
      (∀ i, i < steps.length →
        steps[i]? = some (min (elapsedSeconds 1250 readyScene.mPreUpdateTime
          - (steps.take i).sum) readyScene.mTimestep)) ∧
      steps.sum = elapsedSeconds 1250 readyScene.mPreUpdateTime ∧
      steps.length = ⌈elapsedSeconds 1250 readyScene.mPreUpdateTime / readyScene.mTimestep⌉₊ :=
  ⟨⟨by decide, by norm_num [readyScene]⟩,
    (Update_decomposes_elapsed_time readyScene 1250 (by decide) (by norm_num [readyScene])).2 3
      (by
        rw [Nat.ceil_le]
        simp only [readyScene, elapsedSeconds_sample]
        norm_num)⟩

/-! ## Lifecycle: `Init` and `release` -/

theorem release_of_not_init (s : PhysxSceneImpl) (h : s.mInit = false) :
    s.release = some s := by
  simp [release, h]

theorem safeReleaseScene_mInit (s : PhysxSceneImpl) :
    s.safeReleaseScene.mInit = s.mInit := by
  unfold safeReleaseScene; split_ifs <;> rfl

theorem safeReleaseCpuDispatcher_mInit (s : PhysxSceneImpl) :
    s.safeReleaseCpuDispatcher.mInit = s.mInit := by
  unfold safeReleaseCpuDispatcher; split_ifs <;> rfl

theorem safeReleaseCooking_mInit (s : PhysxSceneImpl) :
    s.safeReleaseCooking.mInit = s.mInit := by
  unfold safeReleaseCooking; split_ifs <;> rfl

theorem closeExtensionsIfPVD_mInit (s : PhysxSceneImpl) :
    s.closeExtensionsIfPVD.mInit = s.mInit := by
  unfold closeExtensionsIfPVD; split_ifs <;> rfl

theorem safeReleasePhysicsSDK_mInit (s : PhysxSceneImpl) :
    s.safeReleasePhysicsSDK.mInit = s.mInit := by
  unfold safeReleasePhysicsSDK; split_ifs <;> rfl

theorem safeReleaseFoundation_mInit (s : PhysxSceneImpl) :
    s.safeReleaseFoundation.mInit = s.mInit := by
  unfold safeReleaseFoundation; split_ifs <;> rfl

theorem teardown_mInit (s : PhysxSceneImpl) : s.teardown.mInit = s.mInit := by
  unfold teardown
  rw [safeReleaseFoundation_mInit, log_mInit, safeReleasePhysicsSDK_mInit,
    closeExtensionsIfPVD_mInit, safeReleaseCooking_mInit, safeReleaseCpuDispatcher_mInit,
    safeReleaseScene_mInit]

theorem releaseActors_mInit (s s' : PhysxSceneImpl) (h : s.releaseActors = some s') :
    s'.mInit = s.mInit := by
  unfold releaseActors at h
  split_ifs at h
  cases h
  rfl

theorem release_result_not_init (s s' : PhysxSceneImpl) (h : s.release = some s') :
    s'.mInit = false := by
  by_cases hi : s.mInit = true
  · unfold release at h
    rw [if_pos hi, Option.map_eq_some'] at h
    obtain ⟨a, ha, rfl⟩ := h
    rw [teardown_mInit, releaseActors_mInit _ _ ha, setInit_mInit]
  · have hf : s.mInit = false := by simpa using hi
    rw [release_of_not_init s hf] at h
    cases h
    exact hf

theorem failInit_result (s : PhysxSceneImpl) (b : Bool) (s' : PhysxSceneImpl)
    (h : failInit s = some (b, s')) : b = false ∧ s'.mInit = false := by
  unfold failInit at h
  rw [Option.map_eq_some'] at h
  obtain ⟨a, ha, hp⟩ := h
  cases hp
  exact ⟨rfl, release_result_not_init _ _ ha⟩

theorem failureLeavesFlagUnset_failInit (s : PhysxSceneImpl) :
    FailureLeavesFlagUnset (failInit s) :=
  fun _ h => (failInit_result _ _ _ h).2

theorem failureLeavesFlagUnset_success (s : PhysxSceneImpl) :
    FailureLeavesFlagUnset (some (true, s)) := by
  intro s' h
  cases h

theorem failureLeavesFlagUnset_ite (c : Prop) [Decidable c]
    (a b : Option (Bool × PhysxSceneImpl)) (ha : FailureLeavesFlagUnset a)
    (hb : FailureLeavesFlagUnset b) : FailureLeavesFlagUnset (if c then a else b) := by
  split_ifs
  · exact ha
  · exact hb

theorem Init_failure_leaves_flag_unset (r : InitReplies) (timestep : ℚ) (supportPVD : Bool)
    (s : PhysxSceneImpl) : FailureLeavesFlagUnset (Init r timestep supportPVD s) := by
  unfold Init initBody
  repeat' first
    | exact failureLeavesFlagUnset_failInit _
    | exact failureLeavesFlagUnset_success _
    | refine failureLeavesFlagUnset_ite _ _ _ ?_ ?_

theorem Init_false_not_init (r : InitReplies) (timestep : ℚ) (supportPVD : Bool)
    (s s' : PhysxSceneImpl) (h : Init r timestep supportPVD s = some (false, s')) :
    s'.mInit = false :=
  Init_failure_leaves_flag_unset r timestep supportPVD s s' h

/-- C4: `release` on a scene whose flag is not set returns the scene as it
was, trace included, so no field changes and no call is made; on every scene a
second `release` after a first changes nothing more; and the destructor is a
no-op on a scene whose flag is not set, in particular after any failed `Init`
on a fresh scene. -/
theorem release_noop_when_not_initialized (s : PhysxSceneImpl) :
    (s.mInit = false → s.release = some s) ∧
    (s.release.bind release = s.release) ∧
    (s.mInit = false → s.destructor = some s) ∧
    (∀ (r : InitReplies) (timestep : ℚ) (supportPVD : Bool) (now : Nat) (material : Ptr)
      (s' : PhysxSceneImpl),
      Init r timestep supportPVD (PhysxSceneImpl.new now material) = some (false, s') →
        s'.destructor = some s') := by
  refine ⟨release_of_not_init s, ?_, release_of_not_init s, ?_⟩
  · cases h : s.release with
    | none => rfl
    | some s' =>
      simp only [Option.some_bind]
      exact release_of_not_init s' (release_result_not_init s s' h)
  · intro r timestep supportPVD now material s' h
    exact release_of_not_init s' (Init_false_not_init _ _ _ _ _ h)

/-- C4 at a concrete input: the freshly constructed scene. -/
theorem release_noop_when_not_initialized_witness :
    (PhysxSceneImpl.new 0 0).mInit = false ∧
      (PhysxSceneImpl.new 0 0).release = some (PhysxSceneImpl.new 0 0) :=
  ⟨rfl, (release_noop_when_not_initialized (PhysxSceneImpl.new 0 0)).1 rfl⟩

/-- C6: `Init` on a scene whose flag is already set returns `true` and the
scene as it was: no call is added to the trace and no field changes, the
timestep and the debug-transport setting included. -/
theorem Init_noop_when_initialized (r : InitReplies) (timestep : ℚ) (supportPVD : Bool)
    (s : PhysxSceneImpl) (h : s.mInit = true) :
    Init r timestep supportPVD s = some (true, s) := by
  simp [Init, h]

/-- C6 at a concrete input: a second `Init` with another timestep and with
the debug transport switched on. -/
theorem Init_noop_when_initialized_witness :
    readyScene.mInit = true ∧
      Init { okReplies with foundation := 0 } (1 / 60) true readyScene
        = some (true, readyScene) :=
  ⟨rfl, Init_noop_when_initialized _ _ _ readyScene rfl⟩

/-- C2 (the code at a failing input): the foundation, physics context,
material, cooking context and dispatcher are created and the creation of the
simulation context fails. `Init` returns `false`, yet its call to `release` does
nothing because the flag is still unset: the five fields keep their pointers
and no release call is made. -/
theorem Init_failure_keeps_resources :
    ∃ s' : PhysxSceneImpl,
      Init { okReplies with scene := 0 } (1 / 2) false (PhysxSceneImpl.new 0 0)
        = some (false, s') ∧
      s'.mFoundation = 1 ∧ s'.mPhysicsSDK = 2 ∧ s'.mMaterial = 3 ∧ s'.mCooking = 4 ∧
      s'.mCpuDispatcher = 5 ∧ s'.mInit = false ∧
      s'.trace = [.createFoundation, .createPhysics, .createMaterial, .createCooking,
        .createCpuDispatcher, .createScene] := by
  refine ⟨{ PhysxSceneImpl.new 0 0 with
      mFoundation := 1, mPhysicsSDK := 2, mMaterial := 3, mCooking := 4, mCpuDispatcher := 5,
      trace := [.createFoundation, .createPhysics, .createMaterial, .createCooking,
        .createCpuDispatcher, .createScene] }, ?_, rfl, rfl, rfl, rfl, rfl, rfl, rfl⟩
  rfl

/-- C5 (the claim fails as stated): on an initialized scene with two registered
actors the physics context is released before the debug connection is closed,
not after it; and the field of the default material still holds its pointer
afterwards. -/
theorem release_order_counterexample :
    ∃ s' : PhysxSceneImpl,
      sceneWithActors.release = some s' ∧
      s'.trace.filter isTeardown
        = [.releaseScene, .releaseCpuDispatcher, .releaseCooking, .releasePhysics, .pvdClose,
            .releaseFoundation] ∧
      s'.trace.filter isTeardown
        ≠ [.releaseScene, .releaseCpuDispatcher, .releaseCooking, .pvdClose, .releasePhysics,
            .releaseFoundation] ∧
      s'.mMaterial = 3 := by
  refine ⟨_, rfl, ?_, ?_, rfl⟩
  · decide
  · decide

/-- C5 (amended): `release` on an initialized scene whose registry holds no
null pointer takes the write lock, releases every registered actor once in
registry order, gives the lock back, and then tears down the simulation
context, the dispatcher, the cooking context, the extensions when the debug
transport is on, the physics context, the debug connection and the foundation,
in this order; afterwards the registry is empty, the flag is unset and the
five resource fields that were torn down are null. -/
theorem release_teardown_order (s : PhysxSceneImpl) (h : Initialized s)
    (ha : 0 ∉ s.mPhysicsActors) :
    ∃ s' : PhysxSceneImpl,
      s.release = some s' ∧
      s'.trace = s.trace ++ [Call.lockWrite] ++ s.mPhysicsActors.map Call.releaseActor
        ++ [Call.unlockWrite, Call.releaseScene, Call.releaseCpuDispatcher, Call.releaseCooking]
        ++ (if s.mSupportPVD = true then [Call.closeExtensions] else [])
        ++ [Call.releasePhysics, Call.pvdClose, Call.releaseFoundation] ∧
      s'.mPhysicsActors = [] ∧ s'.mInit = false ∧
      s'.mScene = 0 ∧ s'.mCpuDispatcher = 0 ∧ s'.mCooking = 0 ∧ s'.mPhysicsSDK = 0 ∧
      s'.mFoundation = 0 := by
  obtain ⟨hi, hf, hp, -, hc, hd, hs⟩ := h
  obtain ⟨f, p, c, sc, d, m, i, ts, pvd, pre, acts, att, tr⟩ := s
  simp only at hi hf hp hc hd hs ha
  subst hi
  cases pvd <;>
    simp [release, releaseActors, teardown, safeReleaseScene, safeReleaseCpuDispatcher,
      safeReleaseCooking, closeExtensionsIfPVD, safeReleasePhysicsSDK, safeReleaseFoundation,
      hf, hp, hc, hd, hs, ha]

/-- C5 (amended) at a concrete input: the scene with two registered actors. -/
theorem release_teardown_order_witness :
    (Initialized sceneWithActors ∧ 0 ∉ sceneWithActors.mPhysicsActors) ∧
    ∃ s' : PhysxSceneImpl,
      sceneWithActors.release = some s' ∧
      s'.trace = sceneWithActors.trace ++ [Call.lockWrite]
        ++ sceneWithActors.mPhysicsActors.map Call.releaseActor
        ++ [Call.unlockWrite, Call.releaseScene, Call.releaseCpuDispatcher, Call.releaseCooking]
        ++ (if sceneWithActors.mSupportPVD = true then [Call.closeExtensions] else [])
        ++ [Call.releasePhysics, Call.pvdClose, Call.releaseFoundation] ∧
      s'.mPhysicsActors = [] ∧ s'.mInit = false ∧
      s'.mScene = 0 ∧ s'.mCpuDispatcher = 0 ∧ s'.mCooking = 0 ∧ s'.mPhysicsSDK = 0 ∧
      s'.mFoundation = 0 :=
  ⟨⟨by decide, by decide⟩, release_teardown_order sceneWithActors (by decide) (by decide)⟩

/-! ## The scratch buffer of `CreateHeightField` -/

theorem foldlM_option_invariant {α β : Type} (P : β → Prop) (f : β → α → Option β) :
    ∀ (l : List α) (b : β), P b →
      (∀ (b : β) (a : α), a ∈ l → P b → ∃ b' : β, f b a = some b' ∧ P b') →
      ∃ b' : β, l.foldlM f b = some b' ∧ P b' := by
  intro l
  induction l with
  | nil =>
    intro b hb _
    exact ⟨b, rfl, hb⟩
  | cons a l ih =>
    intro b hb hstep
    obtain ⟨b1, hf, hb1⟩ := hstep b a (List.mem_cons_self a l) hb
    obtain ⟨b2, hfold, hb2⟩ :=
      ih b1 hb1 (fun b' a' ha' hb' => hstep b' a' (List.mem_cons_of_mem a ha') hb')
    refine ⟨b2, ?_, hb2⟩
    rw [List.foldlM_cons, hf]
    exact hfold

theorem grid_index_lt (columns rows row col : Nat) (hrow : row < rows) (hcol : col < columns) :
    col + row * columns < columns * rows := by
  have h1 : (row + 1) * columns ≤ rows * columns := Nat.mul_le_mul_right columns hrow
  have h2 : (row + 1) * columns = row * columns + columns := by ring
  have h3 : columns * rows = rows * columns := Nat.mul_comm _ _
  omega

theorem storeSample_some (heightmap : List Int) (columns rows row col : Nat)
    (samples : List Int) (hrow : row < rows) (hcol : col < columns)
    (hint : columns * rows ≤ 2 ^ 31) (hlen : columns * rows ≤ heightmap.length)
    (hs : samples.length = columns * rows) :
    ∃ samples' : List Int,
      storeSample heightmap columns row col samples = some samples' ∧
      samples'.length = columns * rows := by
  have hidx := grid_index_lt columns rows row col hrow hcol
  have hmod : (col + row * columns) % 2 ^ uintBits = col + row * columns := by
    apply Nat.mod_eq_of_lt
    have : (2 : Nat) ^ 31 < 2 ^ uintBits := by decide
    omega
  have hget : heightmap[col + row * columns]? = some (heightmap[col + row * columns]) :=
    List.getElem?_eq_getElem (by omega)
  refine ⟨samples.set (col + row * columns) (heightmap[col + row * columns]), ?_, ?_⟩
  · unfold storeSample
    have hneg : ¬ (2 ^ (uintBits - 1) ≤ col + row * columns) := by
      have : (2 : Nat) ^ (uintBits - 1) = 2 ^ 31 := by decide
      omega
    simp only [hmod, hneg, if_false, hget]
    rw [if_pos (by omega)]
  · rw [List.length_set, hs]

theorem fillSamples_some (buffer : Ptr) (heightmap : List Int) (columns rows : Nat)
    (hb : buffer ≠ 0) (hint : columns * rows ≤ 2 ^ 31)
    (hlen : columns * rows ≤ heightmap.length) :
    ∃ samples : List Int, fillSamples buffer heightmap columns rows = some samples := by
  have hmod : (columns * rows) % 2 ^ uintBits = columns * rows := by
    apply Nat.mod_eq_of_lt
    have : (2 : Nat) ^ 31 < 2 ^ uintBits := by decide
    omega
  unfold fillSamples
  simp only [hb, if_false, hmod]
  obtain ⟨samples, hfold, -⟩ :=
    foldlM_option_invariant (fun samples : List Int => samples.length = columns * rows)
      (fun samples row =>
        (List.range columns).foldlM
          (fun samples col => storeSample heightmap columns row col samples) samples)
      (List.range rows) (List.replicate (columns * rows) 0) (List.length_replicate _ _)
      (fun samples row hrow hs =>
        foldlM_option_invariant (fun samples : List Int => samples.length = columns * rows)
          (fun samples col => storeSample heightmap columns row col samples)
          (List.range columns) samples hs
          (fun samples' col hcol hs' =>
            storeSample_some heightmap columns rows row col samples'
              (List.mem_range.mp hrow) (List.mem_range.mp hcol) hint hlen hs'))
  exact ⟨samples, hfold⟩

theorem fillSamples_null (heightmap : List Int) (columns rows : Nat) :
    fillSamples 0 heightmap columns rows = none := by
  simp [fillSamples]

theorem storeSample_empty_buffer (heightmap : List Int) (columns row col : Nat) :
    storeSample heightmap columns row col [] = none := by
  unfold storeSample
  simp only [List.length_nil, Nat.not_lt_zero, if_false]
  split_ifs
  · rfl
  · cases heightmap[(col + row * columns) % 2 ^ uintBits]? <;> rfl

theorem fillSamples_wrap (buffer : Ptr) (heightmap : List Int) (columns rows : Nat)
    (hc : 0 < columns) (hr : 0 < rows) (hwrap : (columns * rows) % 2 ^ uintBits = 0) :
    fillSamples buffer heightmap columns rows = none := by
  obtain ⟨c, rfl⟩ : ∃ c, columns = c + 1 := ⟨columns - 1, by omega⟩
  obtain ⟨r, rfl⟩ : ∃ r, rows = r + 1 := ⟨rows - 1, by omega⟩
  unfold fillSamples
  simp only [hwrap, List.replicate_zero]
  split_ifs
  · rfl
  · rw [List.range_succ_eq_map r, List.foldlM_cons, List.range_succ_eq_map c,
      List.foldlM_cons, storeSample_empty_buffer]
    rfl

/-! ## Creation operations -/

@[simp]
theorem defaultRigidDynamic_mScene (actor : Ptr) (s : PhysxSceneImpl) :
    (defaultRigidDynamic actor s).mScene = s.mScene := by
  unfold defaultRigidDynamic visualizeIfPVD
  split_ifs <;> rfl

@[simp]
theorem defaultRigidDynamic_mPhysicsSDK (actor : Ptr) (s : PhysxSceneImpl) :
    (defaultRigidDynamic actor s).mPhysicsSDK = s.mPhysicsSDK := by
  unfold defaultRigidDynamic visualizeIfPVD
  split_ifs <;> rfl

@[simp]
theorem defaultRigidDynamic_mMaterial (actor : Ptr) (s : PhysxSceneImpl) :
    (defaultRigidDynamic actor s).mMaterial = s.mMaterial := by
  unfold defaultRigidDynamic visualizeIfPVD
  split_ifs <;> rfl

@[simp]
theorem defaultRigidDynamic_mCooking (actor : Ptr) (s : PhysxSceneImpl) :
    (defaultRigidDynamic actor s).mCooking = s.mCooking := by
  unfold defaultRigidDynamic visualizeIfPVD
  split_ifs <;> rfl

@[simp]
theorem defaultRigidDynamic_mPhysicsActors (actor : Ptr) (s : PhysxSceneImpl) :
    (defaultRigidDynamic actor s).mPhysicsActors = s.mPhysicsActors := by
  unfold defaultRigidDynamic visualizeIfPVD
  split_ifs <;> rfl

@[simp]
theorem defaultRigidDynamic_attached (actor : Ptr) (s : PhysxSceneImpl) :
    (defaultRigidDynamic actor s).attached = s.attached := by
  unfold defaultRigidDynamic visualizeIfPVD
  split_ifs <;> rfl

theorem CreatePlane_outcome (actor : Ptr) (xNormal yNormal zNormal distance : ℚ)
    (s : PhysxSceneImpl) (h : Initialized s) :
    RegistersOrFails s (actor = 0) actor (CreatePlane actor xNormal yNormal zNormal distance s) := by
  obtain ⟨-, -, hp, hm, -, -, hs⟩ := h
  by_cases h1 : actor = 0 <;>
    simp [RegistersOrFails, CreatePlane, lockScene, addAndRegister, hp, hm, hs, h1]

theorem CreateBoxDynamic_outcome (actor : Ptr) (pos halfExtents : Vector3) (density : ℚ)
    (s : PhysxSceneImpl) (h : Initialized s) :
    RegistersOrFails s (actor = 0) actor (CreateBoxDynamic actor pos halfExtents density s) := by
  obtain ⟨-, -, hp, hm, -, -, hs⟩ := h
  by_cases h1 : actor = 0 <;>
    simp [RegistersOrFails, CreateBoxDynamic, lockScene, addAndRegister, hp, hm, hs, h1]

theorem CreateBoxKinematic_outcome (actor : Ptr) (pos halfExtents : Vector3) (density : ℚ)
    (s : PhysxSceneImpl) (h : Initialized s) :
    RegistersOrFails s (actor = 0) actor (CreateBoxKinematic actor pos halfExtents density s) := by
  obtain ⟨-, -, hp, hm, -, -, hs⟩ := h
  by_cases h1 : actor = 0 <;>
    simp [RegistersOrFails, CreateBoxKinematic, lockScene, addAndRegister, hp, hm, hs, h1]

theorem CreateBoxStatic_outcome (actor : Ptr) (pos halfExtents : Vector3)
    (s : PhysxSceneImpl) (h : Initialized s) :
    RegistersOrFails s (actor = 0) actor (CreateBoxStatic actor pos halfExtents s) := by
  obtain ⟨-, -, hp, hm, -, -, hs⟩ := h
  by_cases h1 : actor = 0 <;>
    simp [RegistersOrFails, CreateBoxStatic, lockScene, addAndRegister, hp, hm, hs, h1]

theorem CreateSphereDynamic_outcome (actor : Ptr) (pos : Vector3) (radius density : ℚ)
    (s : PhysxSceneImpl) (h : Initialized s) :
    RegistersOrFails s (actor = 0) actor (CreateSphereDynamic actor pos radius density s) := by
  obtain ⟨-, -, hp, hm, -, -, hs⟩ := h
  by_cases h1 : actor = 0 <;>
    simp [RegistersOrFails, CreateSphereDynamic, lockScene, addAndRegister, hp, hm, hs, h1]

theorem CreateSphereKinematic_outcome (actor : Ptr) (pos : Vector3) (radius density : ℚ)
    (s : PhysxSceneImpl) (h : Initialized s) :
    RegistersOrFails s (actor = 0) actor (CreateSphereKinematic actor pos radius density s) := by
  obtain ⟨-, -, hp, hm, -, -, hs⟩ := h
  by_cases h1 : actor = 0 <;>
    simp [RegistersOrFails, CreateSphereKinematic, lockScene, addAndRegister, hp, hm, hs, h1]

theorem CreateSphereStatic_outcome (actor : Ptr) (pos : Vector3) (radius : ℚ)
    (s : PhysxSceneImpl) (h : Initialized s) :
    RegistersOrFails s (actor = 0) actor (CreateSphereStatic actor pos radius s) := by
  obtain ⟨-, -, hp, hm, -, -, hs⟩ := h
  by_cases h1 : actor = 0 <;>
    simp [RegistersOrFails, CreateSphereStatic, lockScene, addAndRegister, hp, hm, hs, h1]

theorem CreateCapsuleDynamic_outcome (actor : Ptr) (pos : Vector3) (radius halfHeight density : ℚ)
    (s : PhysxSceneImpl) (h : Initialized s) :
    RegistersOrFails s (actor = 0) actor (CreateCapsuleDynamic actor pos radius halfHeight density s) := by
  obtain ⟨-, -, hp, hm, -, -, hs⟩ := h
  by_cases h1 : actor = 0 <;>
    simp [RegistersOrFails, CreateCapsuleDynamic, lockScene, addAndRegister, hp, hm, hs, h1]

theorem CreateCapsuleKinematic_outcome (actor : Ptr) (pos : Vector3) (radius halfHeight density : ℚ)
    (s : PhysxSceneImpl) (h : Initialized s) :
    RegistersOrFails s (actor = 0) actor (CreateCapsuleKinematic actor pos radius halfHeight density s) := by
  obtain ⟨-, -, hp, hm, -, -, hs⟩ := h
  by_cases h1 : actor = 0 <;>
    simp [RegistersOrFails, CreateCapsuleKinematic, lockScene, addAndRegister, hp, hm, hs, h1]

theorem CreateCapsuleStatic_outcome (actor : Ptr) (pos : Vector3) (radius halfHeight : ℚ)
    (s : PhysxSceneImpl) (h : Initialized s) :
    RegistersOrFails s (actor = 0) actor (CreateCapsuleStatic actor pos radius halfHeight s) := by
  obtain ⟨-, -, hp, hm, -, -, hs⟩ := h
  by_cases h1 : actor = 0 <;>
    simp [RegistersOrFails, CreateCapsuleStatic, lockScene, addAndRegister, hp, hm, hs, h1]

theorem CreateMeshKinematic_outcome (cookOk : Bool) (triangleMesh actor : Ptr)
    (pos scale : Vector3) (vb : List ℚ) (ib : List Nat) (density : ℚ)
    (s : PhysxSceneImpl) (h : Initialized s) :
    RegistersOrFails s (cookOk = false ∨ triangleMesh = 0 ∨ actor = 0) actor
      (CreateMeshKinematic cookOk triangleMesh actor pos scale vb ib density s) := by
  obtain ⟨-, -, hp, hm, hc, -, hs⟩ := h
  by_cases h1 : actor = 0 <;> by_cases h2 : triangleMesh = 0 <;> cases cookOk <;>
    simp [RegistersOrFails, CreateMeshKinematic, lockScene, addAndRegister, hp, hm, hc, hs, h1, h2]

theorem CreateMeshStatic_outcome (cookOk : Bool) (triangleMesh actor : Ptr)
    (pos scale : Vector3) (vb : List ℚ) (ib : List Nat)
    (s : PhysxSceneImpl) (h : Initialized s) :
    RegistersOrFails s (cookOk = false ∨ triangleMesh = 0 ∨ actor = 0) actor
      (CreateMeshStatic cookOk triangleMesh actor pos scale vb ib s) := by
  obtain ⟨-, -, hp, hm, hc, -, hs⟩ := h
  by_cases h1 : actor = 0 <;> by_cases h2 : triangleMesh = 0 <;> cases cookOk <;>
    simp [RegistersOrFails, CreateMeshStatic, lockScene, addAndRegister, hp, hm, hc, hs, h1, h2]

theorem CreateHeightField_outcome (samples heightField actor shape : Ptr)
    (heightmap : List Int) (columns rows : Nat) (scale : Vector3) (s : PhysxSceneImpl)
    (h : Initialized s) (hb : samples ≠ 0) (hint : columns * rows ≤ 2 ^ 31)
    (hlen : columns * rows ≤ heightmap.length) :
    RegistersOrFails s (heightField = 0 ∨ actor = 0 ∨ shape = 0) actor
      (CreateHeightField samples heightField actor shape heightmap columns rows scale s) := by
  obtain ⟨-, -, hp, hm, hc, -, hs⟩ := h
  obtain ⟨buf, hfill⟩ := fillSamples_some samples heightmap columns rows hb hint hlen
  by_cases h1 : actor = 0 <;> by_cases h2 : heightField = 0 <;> by_cases h3 : shape = 0 <;>
    simp [RegistersOrFails, CreateHeightField, hfill, addAndRegister, hp, hm, hc, hs, h1, h2,
      h3]

theorem registersOrFails_exists (s : PhysxSceneImpl) (fails : Prop) (actor : Ptr)
    (o : Option (Ptr × PhysxSceneImpl)) (h : RegistersOrFails s fails actor o) :
    ∃ (a : Ptr) (s' : PhysxSceneImpl),
      o = some (a, s') ∧
      (fails → a = 0 ∧ s'.mPhysicsActors = s.mPhysicsActors ∧ s'.attached = s.attached) ∧
      (¬ fails →
        a = actor ∧ a ≠ 0 ∧ s'.mPhysicsActors = s.mPhysicsActors ++ [a] ∧
          s'.attached = s.attached ++ [a]) := by
  cases o with
  | none => exact absurd h (by simp [RegistersOrFails])
  | some p => exact ⟨p.1, p.2, rfl, h⟩

/-- C3 (the claim fails as stated): on the initialised sample scene
`CreateHeightField` is asked for a grid of 3 x 5 samples and given an empty
heightmap; the buffer is allocated and the engine would create everything. The
first run of the loop body reads `heightmap[0]` out of bounds: the operation
has no defined result, so it neither returns the null pointer nor registers an
actor. The same holds when the heightmap has its fifteen samples and `malloc`
returned null, and when the grid is 65536 x 65536, whatever the heightmap: the
product wraps to 0, the buffer has no sample and the first run of the loop
body is out of bounds. -/
theorem create_heightField_counterexample :
    Initialized readyScene ∧
    create okCreate (.heightField [] 3 5 ⟨2, 1, 4⟩) readyScene = none ∧
    (¬ ∃ (a : Ptr) (s' : PhysxSceneImpl),
      create okCreate (.heightField [] 3 5 ⟨2, 1, 4⟩) readyScene = some (a, s')) ∧
    create { okCreate with samples := 0 } (.heightField (List.replicate 15 0) 3 5 ⟨2, 1, 4⟩)
      readyScene = none ∧
    (∀ heightmap : List Int,
      create okCreate (.heightField heightmap 65536 65536 ⟨2, 1, 4⟩) readyScene = none) := by
  have hnone : create okCreate (.heightField [] 3 5 ⟨2, 1, 4⟩) readyScene = none := rfl
  refine ⟨by decide, hnone, ?_, rfl, ?_⟩
  · rintro ⟨a, s', h⟩
    rw [hnone] at h
    cases h
  · intro heightmap
    have hfill : fillSamples okCreate.samples heightmap 65536 65536 = none :=
      fillSamples_wrap _ _ _ _ (by norm_num) (by norm_num) (by norm_num [uintBits])
    simp only [create, CreateHeightField, hfill]

/-- C3 (amended): on an initialized scene every creation operation whose input
is in order (for a heightfield: the scratch buffer was allocated,
`columns * rows` is at most `2^31` and the heightmap holds at least
`columns * rows` samples) returns. If the engine fails to create the actor (for
a mesh also the cooked data or the triangle mesh, for a heightfield also the
heightfield or the shape) the result is the null pointer and the registry and
the actors attached to the scene are unchanged; otherwise the result is the
actor the engine created, which is not null, and both the registry and the
attached actors are the old ones with that actor appended. -/
theorem create_registers_or_fails (r : EngineReplies) (op : CreateOp) (s : PhysxSceneImpl)
    (h : Initialized s) (hin : inputOk r op) :
    ∃ (a : Ptr) (s' : PhysxSceneImpl),
      create r op s = some (a, s') ∧
      (engineFails r op →
        a = 0 ∧ s'.mPhysicsActors = s.mPhysicsActors ∧ s'.attached = s.attached) ∧
      (¬ engineFails r op →
        a = r.actor ∧ a ≠ 0 ∧ s'.mPhysicsActors = s.mPhysicsActors ++ [a] ∧
          s'.attached = s.attached ++ [a]) := by
  cases op with
  | plane x y z d => exact registersOrFails_exists _ _ _ _ (CreatePlane_outcome r.actor x y z d s h)
  | heightField hm c rw sc =>
    obtain ⟨hb, hint, hlen⟩ := hin
    exact registersOrFails_exists _ _ _ _
      (CreateHeightField_outcome r.samples r.heightField r.actor r.shape hm c rw sc s h hb
        hint hlen)
  | boxDynamic p he d => exact registersOrFails_exists _ _ _ _ (CreateBoxDynamic_outcome r.actor p he d s h)
  | boxKinematic p he d => exact registersOrFails_exists _ _ _ _ (CreateBoxKinematic_outcome r.actor p he d s h)
  | boxStatic p he => exact registersOrFails_exists _ _ _ _ (CreateBoxStatic_outcome r.actor p he s h)
  | sphereDynamic p rad d => exact registersOrFails_exists _ _ _ _ (CreateSphereDynamic_outcome r.actor p rad d s h)
  | sphereKinematic p rad d => exact registersOrFails_exists _ _ _ _ (CreateSphereKinematic_outcome r.actor p rad d s h)
  | sphereStatic p rad => exact registersOrFails_exists _ _ _ _ (CreateSphereStatic_outcome r.actor p rad s h)
  | capsuleDynamic p rad hh d => exact registersOrFails_exists _ _ _ _ (CreateCapsuleDynamic_outcome r.actor p rad hh d s h)
  | capsuleKinematic p rad hh d => exact registersOrFails_exists _ _ _ _ (CreateCapsuleKinematic_outcome r.actor p rad hh d s h)
  | capsuleStatic p rad hh => exact registersOrFails_exists _ _ _ _ (CreateCapsuleStatic_outcome r.actor p rad hh s h)
  | meshKinematic p sc vb ib d =>
    exact registersOrFails_exists _ _ _ _
      (CreateMeshKinematic_outcome r.cookOk r.triangleMesh r.actor p sc vb ib d s h)
  | meshStatic p sc vb ib =>
    exact registersOrFails_exists _ _ _ _
      (CreateMeshStatic_outcome r.cookOk r.triangleMesh r.actor p sc vb ib s h)

/-- C3 (amended) at a concrete input: a heightfield of 3 x 5 samples, with a
heightmap of fifteen samples, on the initialised sample scene. -/
theorem create_registers_or_fails_witness :
    (Initialized readyScene ∧
      inputOk okCreate (.heightField (List.replicate 15 0) 3 5 ⟨2, 1, 4⟩)) ∧
    ∃ (a : Ptr) (s' : PhysxSceneImpl),
      create okCreate (.heightField (List.replicate 15 0) 3 5 ⟨2, 1, 4⟩) readyScene
        = some (a, s') ∧
      (engineFails okCreate (.heightField (List.replicate 15 0) 3 5 ⟨2, 1, 4⟩) →
        a = 0 ∧ s'.mPhysicsActors = readyScene.mPhysicsActors ∧
          s'.attached = readyScene.attached) ∧
      (¬ engineFails okCreate (.heightField (List.replicate 15 0) 3 5 ⟨2, 1, 4⟩) →
        a = okCreate.actor ∧ a ≠ 0 ∧ s'.mPhysicsActors = readyScene.mPhysicsActors ++ [a] ∧
          s'.attached = readyScene.attached ++ [a]) :=
  have hin : inputOk okCreate (.heightField (List.replicate 15 0) 3 5 ⟨2, 1, 4⟩) :=
    ⟨by decide, by decide, by decide⟩
  ⟨⟨by decide, hin⟩, create_registers_or_fails okCreate _ readyScene (by decide) hin⟩

/-- C7 (the code at a failing input): a description with one box and one
sphere is loaded and the engine fails to create the box. `CreateBoxStatic`
returns the null pointer without touching the registry, `CreateScene` passes
that pointer to `SetGlobalRotate`, which dereferences it: the run has no
defined result, and the sphere is never reached, although on its own it can
be created. -/
theorem CreateScene_failed_element_faults :
    (∃ s' : PhysxSceneImpl,
      CreateBoxStatic 0 ⟨0, 0, 0⟩ ⟨1, 1, 1⟩ readyScene = some (0, s') ∧
      s'.mPhysicsActors = readyScene.mPhysicsActors) ∧
    (∀ (rotate : Quat) (s : PhysxSceneImpl), SetGlobalRotate 0 rotate s = none) ∧
    CreateScene (fun _ => some boxAndSphere) boxFails "scene" [] readyScene = none ∧
    (∃ s' : PhysxSceneImpl,
      CreateSphereStatic 14 ⟨0, 5, 0⟩ 1 readyScene = some (14, s') ∧
      s'.mPhysicsActors = [14]) := by
  refine ⟨⟨_, rfl, rfl⟩, fun _ _ => rfl, rfl, ⟨_, rfl, rfl⟩⟩

theorem sceneInfoMgr_Get_Set_of_absent (mgr : SceneInfoMgr) (path : String) (d : SceneInfo)
    (h : mgr.Get path = none) : (mgr.Set path d).Get path = some d := by
  unfold SceneInfoMgr.Get at h
  unfold SceneInfoMgr.Set SceneInfoMgr.Get
  rw [h]
  induction mgr with
  | nil => simp [List.lookup]
  | cons kv rest ih =>
    obtain ⟨k, v⟩ := kv
    by_cases hk : path = k
    · subst hk
      simp [List.lookup] at h
    · have hk' : (path == k) = false := by simpa using hk
      simp only [List.lookup, hk', List.cons_append] at h ⊢
      exact ih h

theorem ite_log_eq_logAll (c : Prop) [Decidable c] (s : PhysxSceneImpl) (x : Call) :
    (if c then s.log x else s) = s.logAll (if c then [x] else []) := by
  split_ifs
  · rfl
  · exact (logAll_nil s).symm

theorem initPvd_eq_logAll (s : PhysxSceneImpl) :
    s.initPvd
      = s.logAll (if s.mSupportPVD = true then [.pvdInit, .pvdCreateConnection] else []) := by
  unfold initPvd
  split_ifs
  · rfl
  · exact (logAll_nil s).symm

theorem initPvdScene_eq_logAll (pvdClient : Ptr) (s : PhysxSceneImpl) :
    s.initPvdScene pvdClient
      = s.logAll (if s.mSupportPVD = true then
          [.setVisualizationParameter, .setVisualizationParameter, .getScenePvdClient]
            ++ (if pvdClient ≠ 0 then [.setScenePvdFlag, .setScenePvdFlag, .setScenePvdFlag]
                else [])
          else []) := by
  unfold initPvdScene
  split_ifs
  · simp [logAll]
  · simp [logAll]
  · exact (logAll_nil s).symm

theorem successEstablishes_failInit (P : PhysxSceneImpl → Prop) (s : PhysxSceneImpl) :
    SuccessEstablishes P (failInit s) := by
  intro s' h
  exact absurd (failInit_result _ _ _ h).1 (by decide)

theorem successEstablishes_success (P : PhysxSceneImpl → Prop) (s : PhysxSceneImpl)
    (h : P s) : SuccessEstablishes P (some (true, s)) := by
  intro s' hs
  cases hs
  exact h

theorem successEstablishes_ite (P : PhysxSceneImpl → Prop) (c : Prop) [Decidable c]
    (a b : Option (Bool × PhysxSceneImpl)) (ha : c → SuccessEstablishes P a)
    (hb : ¬ c → SuccessEstablishes P b) : SuccessEstablishes P (if c then a else b) := by
  split_ifs with hc
  · exact ha hc
  · exact hb hc

theorem Init_success (r : InitReplies) (timestep : ℚ) (supportPVD : Bool)
    (s : PhysxSceneImpl) (hs : s.mInit = false) :
    SuccessEstablishes
      (fun s' => Initialized s' ∧ s'.mTimestep = timestep ∧
        s'.mPreUpdateTime = s.mPreUpdateTime ∧ s'.mPhysicsActors = s.mPhysicsActors ∧
        s'.mSupportPVD = supportPVD)
      (Init r timestep supportPVD s) := by
  unfold Init
  rw [if_pos hs]
  unfold initBody
  refine successEstablishes_ite _ _ _ _ (fun _ => successEstablishes_failInit _ _) fun h1 => ?_
  refine successEstablishes_ite _ _ _ _ (fun _ => successEstablishes_failInit _ _) fun h2 => ?_
  refine successEstablishes_ite _ _ _ _ (fun _ => successEstablishes_failInit _ _) fun h3 => ?_
  refine successEstablishes_ite _ _ _ _ (fun _ => successEstablishes_failInit _ _) fun h4 => ?_
  refine successEstablishes_ite _ _ _ _ (fun _ => successEstablishes_failInit _ _) fun h5 => ?_
  refine successEstablishes_ite _ _ _ _ (fun _ => successEstablishes_failInit _ _) fun h6 => ?_
  refine successEstablishes_ite _ _ _ _ (fun _ => successEstablishes_failInit _ _) fun h7 => ?_
  refine successEstablishes_success _ _ ?_
  simp only [ite_log_eq_logAll, initPvd_eq_logAll, initPvdScene_eq_logAll, setFoundation_mFoundation,
    setPhysicsSDK_mPhysicsSDK, setMaterial_mMaterial, setCooking_mCooking,
    setCpuDispatcher_mCpuDispatcher, setScene_mScene] at h1 h2 h4 h5 h6 h7
  simp [Initialized, ite_log_eq_logAll, initPvd_eq_logAll, initPvdScene_eq_logAll, h1, h2, h4,
    h5, h6, h7]

/-! ## The baseline of `Update` -/

theorem simulateLoop_frame (timestep : ℚ) :
    ∀ (fuel : Nat) (dtime : ℚ) (s s' : PhysxSceneImpl),
      simulateLoop timestep fuel dtime s = some s' → ∃ cs : List Call, s' = s.logAll cs := by
  intro fuel
  induction fuel with
  | zero =>
    intro dtime s s' h
    by_cases hd : 0 < dtime
    · unfold simulateLoop at h
      simp [hd] at h
    · rw [simulateLoop_done timestep 0 dtime s (not_lt.mp hd)] at h
      cases h
      exact ⟨[], (logAll_nil s).symm⟩
  | succ fuel ih =>
    intro dtime s s' h
    by_cases hd : 0 < dtime
    · rw [simulateLoop_step timestep fuel dtime s hd] at h
      obtain ⟨cs, rfl⟩ := ih _ _ _ h
      exact ⟨[Call.simulate (min dtime timestep), Call.fetchResults] ++ cs, by
        simp [log, logAll]⟩
    · rw [simulateLoop_done timestep (fuel + 1) dtime s (not_lt.mp hd)] at h
      cases h
      exact ⟨[], (logAll_nil s).symm⟩

theorem Update_run (s : PhysxSceneImpl) (nowTime fuel : Nat) (hs : s.mScene ≠ 0)
    (hts : 0 < s.mTimestep)
    (hfuel : ⌈elapsedSeconds nowTime s.mPreUpdateTime / s.mTimestep⌉₊ ≤ fuel) :
    ∃ steps : List ℚ,
      Update fuel nowTime s
        = some (PhysxSceneImpl.logAll { s with mPreUpdateTime := nowTime % 2 ^ ulongBits }
            (stepCalls steps)) ∧
      steps.sum = elapsedSeconds nowTime s.mPreUpdateTime ∧
      steps.length = ⌈elapsedSeconds nowTime s.mPreUpdateTime / s.mTimestep⌉₊ := by
  obtain ⟨steps, hrun, -, h2, h3⟩ :=
    Update_steps_aux s.mTimestep _ hts (elapsedSeconds_nonneg nowTime s.mPreUpdateTime)
      fuel hfuel { s with mPreUpdateTime := nowTime % 2 ^ ulongBits }
  refine ⟨steps, ?_, h2, h3⟩
  unfold Update
  simp only [hs, ne_eq, not_false_eq_true, if_true]
  exact hrun

theorem simulateLoop_diverges (timestep : ℚ) (hts : timestep ≤ 0) :
    ∀ (fuel : Nat) (dtime : ℚ) (s : PhysxSceneImpl), 0 < dtime →
      simulateLoop timestep fuel dtime s = none := by
  intro fuel
  induction fuel with
  | zero =>
    intro dtime s hd
    unfold simulateLoop
    simp [hd]
  | succ fuel ih =>
    intro dtime s hd
    rw [simulateLoop_step timestep fuel dtime s hd]
    apply ih
    have hmin : min dtime timestep = timestep := min_eq_right (le_trans hts (le_of_lt hd))
    rw [hmin]
    linarith

theorem simulateLoop_returns (timestep dtime : ℚ) (s : PhysxSceneImpl) (fuel : Nat)
    (hts : 0 < timestep) (hfuel : ⌈dtime / timestep⌉₊ ≤ fuel) :
    (simulateLoop timestep fuel dtime s).isSome = true := by
  obtain ⟨steps, hrun, -⟩ := simulateLoop_spec timestep hts _ dtime s fuel rfl hfuel
  rw [hrun]
  rfl

/-- C13: in exact arithmetic the stepping loop of `Update` returns for some
number of iterations if and only if the timestep is positive or the elapsed
time is not positive. With a positive timestep `⌈dtime / timestep⌉` iterations
are enough for every elapsed time; with a timestep that is not positive and a
positive elapsed time no number of iterations is enough, and then `Update` on
a scene with a simulation context does not return either. `Init` stores
whatever timestep it is given: a successful `Init` leaves exactly that value in
`mTimestep`, and against replies that all succeed `Init` succeeds for every
timestep. -/
theorem simulateLoop_terminates_iff (timestep dtime : ℚ) (s : PhysxSceneImpl) :
    ((∃ fuel : Nat, (simulateLoop timestep fuel dtime s).isSome = true) ↔
      (0 < timestep ∨ dtime ≤ 0)) ∧
    (0 < timestep → ∀ fuel : Nat, ⌈dtime / timestep⌉₊ ≤ fuel →
      (simulateLoop timestep fuel dtime s).isSome = true) ∧
    (timestep ≤ 0 → 0 < dtime → ∀ fuel : Nat, simulateLoop timestep fuel dtime s = none) ∧
    (∀ nowTime : Nat, s.mScene ≠ 0 → s.mTimestep ≤ 0 →
      0 < elapsedSeconds nowTime s.mPreUpdateTime →
      ∀ fuel : Nat, Update fuel nowTime s = none) ∧
    (∀ (r : InitReplies) (supportPVD : Bool) (s0 s' : PhysxSceneImpl), s0.mInit = false →
      Init r timestep supportPVD s0 = some (true, s') → s'.mTimestep = timestep) ∧
    Init okReplies timestep false (PhysxSceneImpl.new 0 0)
      = some (true, readyScene.setTimestep timestep) := by
  refine ⟨⟨?_, ?_⟩, ?_, ?_, ?_, ?_, rfl⟩
  · rintro ⟨fuel, hfuel⟩
    by_contra hcon
    rw [not_or, not_lt, not_le] at hcon
    rw [simulateLoop_diverges timestep hcon.1 fuel dtime s hcon.2] at hfuel
    exact absurd hfuel (by decide)
  · rintro (hts | hd)
    · exact ⟨_, simulateLoop_returns timestep dtime s _ hts le_rfl⟩
    · exact ⟨0, by rw [simulateLoop_done timestep 0 dtime s hd]; rfl⟩
  · intro hts fuel hfuel
    exact simulateLoop_returns timestep dtime s fuel hts hfuel
  · intro hts hd fuel
    exact simulateLoop_diverges timestep hts fuel dtime s hd
  · intro nowTime hs hts hd fuel
    unfold Update
    simp only [hs, ne_eq, not_false_eq_true, if_true]
    exact simulateLoop_diverges _ hts fuel _ _ hd
  · intro r supportPVD s0 s' h0 hInit
    exact (Init_success r timestep supportPVD s0 h0 s' hInit).2.1

/-! ## The scene lock in creation operations -/

/-- C12 (the code at a failing input): `CreateHeightField` on the initialised
sample scene, with a 2 x 2 grid and an engine that creates everything. The
actor is created, attached to the scene and appended to the registry, and the
calls made are the four engine calls alone: the write lock is never taken.
`CreateBoxStatic` on the same scene brackets its engine calls between
`lockWrite` and `unlockWrite`. -/
theorem CreateHeightField_takes_no_lock :
    (∃ s' : PhysxSceneImpl,
      CreateHeightField 9 11 13 12 [0, 0, 0, 0] 2 2 ⟨1, 1, 1⟩ readyScene = some (13, s') ∧
      callsSince readyScene s'
        = [Call.createHeightField 2 2,
           Call.createRigidStatic
            { p := ⟨-(((2 : Nat) : ℚ) / 2 * 1), 0, -(((2 : Nat) : ℚ) / 2 * 1)⟩,
              q := PxIdentity },
           Call.createExclusiveShape 13 11 1 1 1,
           Call.addActor 13] ∧
      Call.lockWrite ∉ callsSince readyScene s' ∧
      s'.mPhysicsActors = [13] ∧ s'.attached = [13]) ∧
    (∃ s' : PhysxSceneImpl,
      CreateBoxStatic 13 ⟨0, 0, 0⟩ ⟨1, 1, 1⟩ readyScene = some (13, s') ∧
      callsSince readyScene s'
        = [Call.lockWrite,
           Call.pxCreateStatic (PxTransform.at ⟨0, 0, 0⟩) (.box ⟨1, 1, 1⟩),
           Call.addActor 13,
           Call.unlockWrite]) := by
  refine ⟨⟨_, rfl, rfl, ?_, rfl, rfl⟩, ⟨_, rfl, rfl⟩⟩
  decide

/-! ## Concurrent calls of `Init` -/

theorem stepInit_twice_eq_Init (c : InitCall) (s : PhysxSceneImpl) :
    ((stepInit c .atLoad s).bind fun out => stepInit c out.1 out.2)
      = (Init c.replies c.timestep c.supportPVD s).map fun out => (.returned out.1, out.2) := by
  by_cases h : s.mInit = false
  · simp [stepInit, Init, h]
  · simp [stepInit, Init, h]

/-- C11 (the code at a failing input): two threads call `Init` on a freshly
constructed scene. Under the schedule in which both threads load `mInit`
before either runs its block, both read `false` and both run the bootstrap.
When the engine creates everything for both, both return `true`, the
foundation is created twice and the pointers of the first bootstrap are
overwritten by those of the second. When the engine refuses the second
foundation, the second thread overwrites `mFoundation` with null and its
`release` tears down what the first thread built, although the first thread
returned `true`. Under the schedule in which the first thread finishes before
the second starts there is one bootstrap. A thread running alone through its
two steps does what `Init` does. -/
theorem concurrent_Init_bootstraps_twice :
    (∃ st : TwoInits,
      runSchedule ⟨okReplies, 1 / 2, false⟩ ⟨okReplies2, 1 / 2, false⟩
          [.first, .second, .first, .second] ⟨.atLoad, .atLoad, PhysxSceneImpl.new 0 0⟩
        = some st ∧
      st.pc1 = .returned true ∧ st.pc2 = .returned true ∧
      bootstraps st.scene.trace = 2 ∧
      st.scene.trace
        = [.createFoundation, .createPhysics, .createMaterial, .createCooking,
            .createCpuDispatcher, .createScene,
           .createFoundation, .createPhysics, .createMaterial, .createCooking,
            .createCpuDispatcher, .createScene] ∧
      st.scene.mFoundation = 21 ∧ st.scene.mScene = 26) ∧
    (runSchedule ⟨okReplies, 1 / 2, false⟩ ⟨{ okReplies2 with foundation := 0 }, 1 / 2, false⟩
          [.first, .second, .first, .second] ⟨.atLoad, .atLoad, PhysxSceneImpl.new 0 0⟩).map
        (fun st => (st.pc1, st.pc2, st.scene.mInit, st.scene.mScene, st.scene.mFoundation,
          st.scene.trace))
      = some (.returned true, .returned false, false, 0, 0,
          [.createFoundation, .createPhysics, .createMaterial, .createCooking,
            .createCpuDispatcher, .createScene,
           .createFoundation, .lockWrite, .unlockWrite, .releaseScene, .releaseCpuDispatcher,
            .releaseCooking, .releasePhysics, .pvdClose]) ∧
    (∃ st : TwoInits,
      runSchedule ⟨okReplies, 1 / 2, false⟩ ⟨okReplies2, 1 / 2, false⟩
          [.first, .first, .second, .second] ⟨.atLoad, .atLoad, PhysxSceneImpl.new 0 0⟩
        = some st ∧
      st.pc1 = .returned true ∧ st.pc2 = .returned true ∧
      bootstraps st.scene.trace = 1 ∧ st.scene.mFoundation = 1) ∧
    (∀ (c : InitCall) (s : PhysxSceneImpl),
      ((stepInit c .atLoad s).bind fun out => stepInit c out.1 out.2)
        = (Init c.replies c.timestep c.supportPVD s).map
            fun out => (.returned out.1, out.2)) := by
  refine ⟨⟨⟨.returned true, .returned true,
      { readyScene.logAll [.createFoundation, .createPhysics, .createMaterial, .createCooking,
          .createCpuDispatcher, .createScene] with
        mFoundation := 21, mPhysicsSDK := 22, mMaterial := 23, mCooking := 24,
        mCpuDispatcher := 25, mScene := 26 }⟩, rfl, rfl, rfl, ?_, rfl, rfl, rfl⟩,
    rfl,
    ⟨⟨.returned true, .returned true, readyScene⟩, rfl, rfl, rfl, ?_, rfl⟩,
    stepInit_twice_eq_Init⟩
  · decide
  · decide

/-! ## The lifecycle invariant -/

theorem Init_noop_initialized (r : InitReplies) (timestep : ℚ) (supportPVD : Bool)
    (s : PhysxSceneImpl) (h : s.mInit = true) :
    Init r timestep supportPVD s = some (true, s) := by
  simp [Init, h]

@[simp]
theorem defaultRigidDynamic_mInit (actor : Ptr) (s : PhysxSceneImpl) :
    (defaultRigidDynamic actor s).mInit = s.mInit := by
  unfold defaultRigidDynamic visualizeIfPVD
  split_ifs <;> rfl

@[simp]
theorem defaultRigidDynamic_mFoundation (actor : Ptr) (s : PhysxSceneImpl) :
    (defaultRigidDynamic actor s).mFoundation = s.mFoundation := by
  unfold defaultRigidDynamic visualizeIfPVD
  split_ifs <;> rfl

@[simp]
theorem defaultRigidDynamic_mCpuDispatcher (actor : Ptr) (s : PhysxSceneImpl) :
    (defaultRigidDynamic actor s).mCpuDispatcher = s.mCpuDispatcher := by
  unfold defaultRigidDynamic visualizeIfPVD
  split_ifs <;> rfl

theorem CreatePlane_frame (actor : Ptr) (xNormal yNormal zNormal distance : ℚ)
    (s : PhysxSceneImpl) (h : Initialized s) :
    CreationFrame s (CreatePlane actor xNormal yNormal zNormal distance s) := by
  obtain ⟨-, -, hp, hm, -, -, hs⟩ := h
  by_cases h1 : actor = 0 <;>
    simp [CreationFrame, CreatePlane, lockScene, addAndRegister, hp, hm, hs, h1]

theorem CreateBoxDynamic_frame (actor : Ptr) (pos halfExtents : Vector3) (density : ℚ)
    (s : PhysxSceneImpl) (h : Initialized s) :
    CreationFrame s (CreateBoxDynamic actor pos halfExtents density s) := by
  obtain ⟨-, -, hp, hm, -, -, hs⟩ := h
  by_cases h1 : actor = 0 <;>
    simp [CreationFrame, CreateBoxDynamic, lockScene, addAndRegister, hp, hm, hs, h1]

theorem CreateBoxKinematic_frame (actor : Ptr) (pos halfExtents : Vector3) (density : ℚ)
    (s : PhysxSceneImpl) (h : Initialized s) :
    CreationFrame s (CreateBoxKinematic actor pos halfExtents density s) := by
  obtain ⟨-, -, hp, hm, -, -, hs⟩ := h
  by_cases h1 : actor = 0 <;>
    simp [CreationFrame, CreateBoxKinematic, lockScene, addAndRegister, hp, hm, hs, h1]

theorem CreateBoxStatic_frame (actor : Ptr) (pos halfExtents : Vector3)
    (s : PhysxSceneImpl) (h : Initialized s) :
    CreationFrame s (CreateBoxStatic actor pos halfExtents s) := by
  obtain ⟨-, -, hp, hm, -, -, hs⟩ := h
  by_cases h1 : actor = 0 <;>
    simp [CreationFrame, CreateBoxStatic, lockScene, addAndRegister, hp, hm, hs, h1]

theorem CreateSphereDynamic_frame (actor : Ptr) (pos : Vector3) (radius density : ℚ)
    (s : PhysxSceneImpl) (h : Initialized s) :
    CreationFrame s (CreateSphereDynamic actor pos radius density s) := by
  obtain ⟨-, -, hp, hm, -, -, hs⟩ := h
  by_cases h1 : actor = 0 <;>
    simp [CreationFrame, CreateSphereDynamic, lockScene, addAndRegister, hp, hm, hs, h1]

theorem CreateSphereKinematic_frame (actor : Ptr) (pos : Vector3) (radius density : ℚ)
    (s : PhysxSceneImpl) (h : Initialized s) :
    CreationFrame s (CreateSphereKinematic actor pos radius density s) := by
  obtain ⟨-, -, hp, hm, -, -, hs⟩ := h
  by_cases h1 : actor = 0 <;>
    simp [CreationFrame, CreateSphereKinematic, lockScene, addAndRegister, hp, hm, hs, h1]

theorem CreateSphereStatic_frame (actor : Ptr) (pos : Vector3) (radius : ℚ)
    (s : PhysxSceneImpl) (h : Initialized s) :
    CreationFrame s (CreateSphereStatic actor pos radius s) := by
  obtain ⟨-, -, hp, hm, -, -, hs⟩ := h
  by_cases h1 : actor = 0 <;>
    simp [CreationFrame, CreateSphereStatic, lockScene, addAndRegister, hp, hm, hs, h1]

theorem CreateCapsuleDynamic_frame (actor : Ptr) (pos : Vector3) (radius halfHeight density : ℚ)
    (s : PhysxSceneImpl) (h : Initialized s) :
    CreationFrame s (CreateCapsuleDynamic actor pos radius halfHeight density s) := by
  obtain ⟨-, -, hp, hm, -, -, hs⟩ := h
  by_cases h1 : actor = 0 <;>
    simp [CreationFrame, CreateCapsuleDynamic, lockScene, addAndRegister, hp, hm, hs, h1]

theorem CreateCapsuleKinematic_frame (actor : Ptr) (pos : Vector3) (radius halfHeight density : ℚ)
    (s : PhysxSceneImpl) (h : Initialized s) :
    CreationFrame s (CreateCapsuleKinematic actor pos radius halfHeight density s) := by
  obtain ⟨-, -, hp, hm, -, -, hs⟩ := h
  by_cases h1 : actor = 0 <;>
    simp [CreationFrame, CreateCapsuleKinematic, lockScene, addAndRegister, hp, hm, hs, h1]

theorem CreateCapsuleStatic_frame (actor : Ptr) (pos : Vector3) (radius halfHeight : ℚ)
    (s : PhysxSceneImpl) (h : Initialized s) :
    CreationFrame s (CreateCapsuleStatic actor pos radius halfHeight s) := by
  obtain ⟨-, -, hp, hm, -, -, hs⟩ := h
  by_cases h1 : actor = 0 <;>
    simp [CreationFrame, CreateCapsuleStatic, lockScene, addAndRegister, hp, hm, hs, h1]

theorem CreateMeshKinematic_frame (cookOk : Bool) (triangleMesh actor : Ptr)
    (pos scale : Vector3) (vb : List ℚ) (ib : List Nat) (density : ℚ)
    (s : PhysxSceneImpl) (h : Initialized s) :
    CreationFrame s (CreateMeshKinematic cookOk triangleMesh actor pos scale vb ib density s) := by
  obtain ⟨-, -, hp, hm, hc, -, hs⟩ := h
  by_cases h1 : actor = 0 <;> by_cases h2 : triangleMesh = 0 <;> cases cookOk <;>
    simp [CreationFrame, CreateMeshKinematic, lockScene, addAndRegister, hp, hm, hc, hs, h1, h2]

theorem CreateMeshStatic_frame (cookOk : Bool) (triangleMesh actor : Ptr)
    (pos scale : Vector3) (vb : List ℚ) (ib : List Nat)
    (s : PhysxSceneImpl) (h : Initialized s) :
    CreationFrame s (CreateMeshStatic cookOk triangleMesh actor pos scale vb ib s) := by
  obtain ⟨-, -, hp, hm, hc, -, hs⟩ := h
  by_cases h1 : actor = 0 <;> by_cases h2 : triangleMesh = 0 <;> cases cookOk <;>
    simp [CreationFrame, CreateMeshStatic, lockScene, addAndRegister, hp, hm, hc, hs, h1, h2]

theorem CreateHeightField_frame (samples heightField actor shape : Ptr)
    (heightmap : List Int) (columns rows : Nat) (scale : Vector3) (s : PhysxSceneImpl)
    (h : Initialized s) :
    CreateHeightField samples heightField actor shape heightmap columns rows scale s = none ∨
    CreationFrame s
      (CreateHeightField samples heightField actor shape heightmap columns rows scale s) := by
  obtain ⟨-, -, hp, hm, hc, -, hs⟩ := h
  cases hfill : fillSamples samples heightmap columns rows with
  | none =>
    left
    simp [CreateHeightField, hfill]
  | some buf =>
    right
    by_cases h1 : actor = 0 <;> by_cases h2 : heightField = 0 <;> by_cases h3 : shape = 0 <;>
      simp [CreationFrame, CreateHeightField, hfill, addAndRegister, hp, hm, hc, hs, h1, h2,
        h3]

theorem create_frame (r : EngineReplies) (op : CreateOp) (s : PhysxSceneImpl)
    (h : Initialized s) : create r op s = none ∨ CreationFrame s (create r op s) := by
  cases op with
  | plane x y z d => exact Or.inr (CreatePlane_frame r.actor x y z d s h)
  | heightField hm c rw sc =>
    exact CreateHeightField_frame r.samples r.heightField r.actor r.shape hm c rw sc s h
  | boxDynamic p he d => exact Or.inr (CreateBoxDynamic_frame r.actor p he d s h)
  | boxKinematic p he d => exact Or.inr (CreateBoxKinematic_frame r.actor p he d s h)
  | boxStatic p he => exact Or.inr (CreateBoxStatic_frame r.actor p he s h)
  | sphereDynamic p rad d => exact Or.inr (CreateSphereDynamic_frame r.actor p rad d s h)
  | sphereKinematic p rad d => exact Or.inr (CreateSphereKinematic_frame r.actor p rad d s h)
  | sphereStatic p rad => exact Or.inr (CreateSphereStatic_frame r.actor p rad s h)
  | capsuleDynamic p rad hh d => exact Or.inr (CreateCapsuleDynamic_frame r.actor p rad hh d s h)
  | capsuleKinematic p rad hh d =>
    exact Or.inr (CreateCapsuleKinematic_frame r.actor p rad hh d s h)
  | capsuleStatic p rad hh => exact Or.inr (CreateCapsuleStatic_frame r.actor p rad hh s h)
  | meshKinematic p sc vb ib d =>
    exact Or.inr (CreateMeshKinematic_frame r.cookOk r.triangleMesh r.actor p sc vb ib d s h)
  | meshStatic p sc vb ib =>
    exact Or.inr (CreateMeshStatic_frame r.cookOk r.triangleMesh r.actor p sc vb ib s h)

theorem safeReleaseScene_mPhysicsActors (s : PhysxSceneImpl) :
    s.safeReleaseScene.mPhysicsActors = s.mPhysicsActors := by
  unfold safeReleaseScene; split_ifs <;> rfl

theorem safeReleaseCpuDispatcher_mPhysicsActors (s : PhysxSceneImpl) :
    s.safeReleaseCpuDispatcher.mPhysicsActors = s.mPhysicsActors := by
  unfold safeReleaseCpuDispatcher; split_ifs <;> rfl

theorem safeReleaseCooking_mPhysicsActors (s : PhysxSceneImpl) :
    s.safeReleaseCooking.mPhysicsActors = s.mPhysicsActors := by
  unfold safeReleaseCooking; split_ifs <;> rfl

theorem closeExtensionsIfPVD_mPhysicsActors (s : PhysxSceneImpl) :
    s.closeExtensionsIfPVD.mPhysicsActors = s.mPhysicsActors := by
  unfold closeExtensionsIfPVD; split_ifs <;> rfl

theorem safeReleasePhysicsSDK_mPhysicsActors (s : PhysxSceneImpl) :
    s.safeReleasePhysicsSDK.mPhysicsActors = s.mPhysicsActors := by
  unfold safeReleasePhysicsSDK; split_ifs <;> rfl

theorem safeReleaseFoundation_mPhysicsActors (s : PhysxSceneImpl) :
    s.safeReleaseFoundation.mPhysicsActors = s.mPhysicsActors := by
  unfold safeReleaseFoundation; split_ifs <;> rfl

theorem teardown_mPhysicsActors (s : PhysxSceneImpl) :
    s.teardown.mPhysicsActors = s.mPhysicsActors := by
  unfold teardown
  rw [safeReleaseFoundation_mPhysicsActors, log_mPhysicsActors,
    safeReleasePhysicsSDK_mPhysicsActors, closeExtensionsIfPVD_mPhysicsActors,
    safeReleaseCooking_mPhysicsActors, safeReleaseCpuDispatcher_mPhysicsActors,
    safeReleaseScene_mPhysicsActors]

theorem releaseActors_mPhysicsActors (s s' : PhysxSceneImpl) (h : s.releaseActors = some s') :
    s'.mPhysicsActors = [] := by
  unfold releaseActors at h
  split_ifs at h
  cases h
  rfl

theorem release_clears_registry (s s' : PhysxSceneImpl) (hi : s.mInit = true)
    (h : s.release = some s') : s'.mPhysicsActors = [] := by
  unfold release at h
  rw [if_pos hi, Option.map_eq_some'] at h
  obtain ⟨a, ha, rfl⟩ := h
  rw [teardown_mPhysicsActors, releaseActors_mPhysicsActors _ _ ha]

theorem release_returns (s : PhysxSceneImpl) (hs : s.mInit = true → s.mScene ≠ 0)
    (ha : 0 ∉ s.mPhysicsActors) : ∃ s' : PhysxSceneImpl, s.release = some s' := by
  by_cases hi : s.mInit = true
  · have hsc : s.mScene ≠ 0 := hs hi
    simp [release, releaseActors, hi, hsc, ha]
  · exact ⟨s, release_of_not_init s (by simpa using hi)⟩

theorem outcomeSatisfies_failInit (P : PhysxSceneImpl → Prop) (s : PhysxSceneImpl)
    (hs : s.mInit = false) (hP : P s) : OutcomeSatisfies P (failInit s) := by
  intro b s' h
  unfold failInit at h
  rw [release_of_not_init s hs] at h
  cases h
  exact hP

theorem outcomeSatisfies_success (P : PhysxSceneImpl → Prop) (b : Bool) (s : PhysxSceneImpl)
    (hP : P s) : OutcomeSatisfies P (some (b, s)) := by
  intro b' s' h
  cases h
  exact hP

theorem outcomeSatisfies_ite (P : PhysxSceneImpl → Prop) (c : Prop) [Decidable c]
    (a b : Option (Bool × PhysxSceneImpl)) (ha : OutcomeSatisfies P a)
    (hb : OutcomeSatisfies P b) : OutcomeSatisfies P (if c then a else b) := by
  split_ifs
  · exact ha
  · exact hb

theorem Init_keeps_registry (r : InitReplies) (timestep : ℚ) (supportPVD : Bool)
    (s : PhysxSceneImpl) :
    OutcomeSatisfies (fun s' => s'.mPhysicsActors = s.mPhysicsActors)
      (Init r timestep supportPVD s) := by
  unfold Init
  by_cases hs : s.mInit = false
  · rw [if_pos hs]
    unfold initBody
    repeat' first
      | refine outcomeSatisfies_failInit _ _ ?_ ?_
      | refine outcomeSatisfies_success _ _ _ ?_
      | refine outcomeSatisfies_ite _ _ _ _ ?_ ?_
    all_goals simp [ite_log_eq_logAll, initPvd_eq_logAll, initPvdScene_eq_logAll, hs]
  · rw [if_neg hs]
    exact outcomeSatisfies_success _ _ _ rfl

theorem Update_frame (fuel nowTime : Nat) (s s' : PhysxSceneImpl)
    (h : Update fuel nowTime s = some s') :
    s'.mInit = s.mInit ∧ s'.mFoundation = s.mFoundation ∧ s'.mPhysicsSDK = s.mPhysicsSDK ∧
    s'.mMaterial = s.mMaterial ∧ s'.mCooking = s.mCooking ∧
    s'.mCpuDispatcher = s.mCpuDispatcher ∧ s'.mScene = s.mScene ∧
    s'.mPhysicsActors = s.mPhysicsActors := by
  unfold Update at h
  by_cases hs : s.mScene ≠ 0
  · rw [if_pos hs] at h
    obtain ⟨cs, rfl⟩ := simulateLoop_frame _ _ _ _ _ h
    exact ⟨rfl, rfl, rfl, rfl, rfl, rfl, rfl, rfl⟩
  · rw [if_neg hs] at h
    cases h
    exact ⟨rfl, rfl, rfl, rfl, rfl, rfl, rfl, rfl⟩

theorem reachable_lifecycleInvariant (s : PhysxSceneImpl) (h : Reachable s) :
    LifecycleInvariant s := by
  induction h with
  | construct now material =>
    exact ⟨fun h => by simp [PhysxSceneImpl.new] at h, fun _ => rfl,
      by simp [PhysxSceneImpl.new]⟩
  | @init s s' r timestep supportPVD b _ hInit ih =>
    have hreg := Init_keeps_registry r timestep supportPVD s b s' hInit
    simp only at hreg
    by_cases hs : s.mInit = false
    · cases b with
      | true =>
        obtain ⟨hinit, -⟩ := Init_success r timestep supportPVD s hs s' hInit
        obtain ⟨hi, hf, hp, hm, hc, hd, hsc⟩ := hinit
        refine ⟨fun _ => ⟨hf, hp, hm, hc, hd, hsc⟩, fun h => ?_, ?_⟩
        · rw [hi] at h
          exact absurd h (by decide)
        · rw [hreg]
          exact ih.2.2
      | false =>
        have hi := Init_false_not_init r timestep supportPVD s s' hInit
        refine ⟨fun h => ?_, fun _ => ?_, ?_⟩
        · rw [hi] at h
          exact absurd h (by decide)
        · rw [hreg]
          exact ih.2.1 hs
        · rw [hreg]
          exact ih.2.2
    · have hs' : s.mInit = true := by simpa using hs
      rw [Init_noop_initialized r timestep supportPVD s hs'] at hInit
      cases hInit
      exact ih
  | @release s s' _ hrel ih =>
    by_cases hs : s.mInit = true
    · have hi := release_result_not_init s s' hrel
      have hreg := release_clears_registry s s' hs hrel
      refine ⟨fun h => ?_, fun _ => hreg, ?_⟩
      · rw [hi] at h
        exact absurd h (by decide)
      · rw [hreg]
        simp
    · rw [release_of_not_init s (by simpa using hs)] at hrel
      cases hrel
      exact ih
  | @update s s' fuel nowTime _ hup ih =>
    obtain ⟨hi, hf, hp, hm, hc, hd, hsc, hreg⟩ := Update_frame fuel nowTime s s' hup
    unfold LifecycleInvariant
    rw [hi, hf, hp, hm, hc, hd, hsc, hreg]
    exact ih
  | @create s s' r op a _ hinit hcr ih =>
    obtain ⟨hf, hp, hm, hc, hd, hsc⟩ := ih.1 hinit
    have hfr : CreationFrame s (create r op s) := by
      rcases create_frame r op s ⟨hinit, hf, hp, hm, hc, hd, hsc⟩ with hnone | hfr
      · rw [hcr] at hnone
        cases hnone
      · exact hfr
    rw [hcr] at hfr
    obtain ⟨hi', hf', hp', hm', hc', hd', hsc', hreg⟩ := hfr
    unfold LifecycleInvariant
    rw [hi', hf', hp', hm', hc', hd', hsc', hreg]
    refine ⟨ih.1, fun h => ?_, ?_⟩
    · rw [hinit] at h
      exact absurd h (by decide)
    · by_cases ha : a = 0
      · simpa [ha] using ih.2.2
      · have h0 := ih.2.2
        simp only [ha, if_false, List.mem_append, List.mem_singleton, not_or]
        exact ⟨h0, fun h => ha h.symm⟩

theorem reachable_readyScene : Reachable readyScene :=
  Reachable.init okReplies (1 / 2) false true (Reachable.construct 0 0) Init_okReplies

/-- C14: in every state reachable from a freshly constructed scene by `Init`,
`release`, `Update` and creation operations run while the flag is set, a set
flag `mInit` implies that foundation, physics context, default material,
cooking context, dispatcher and simulation context are all non-null, an unset
flag implies that the registry is empty, and `release` returns: its lock never
dereferences a null simulation context. -/
theorem lifecycle_invariant (s : PhysxSceneImpl) (h : Reachable s) :
    (s.mInit = true →
      s.mFoundation ≠ 0 ∧ s.mPhysicsSDK ≠ 0 ∧ s.mMaterial ≠ 0 ∧ s.mCooking ≠ 0 ∧
        s.mCpuDispatcher ≠ 0 ∧ s.mScene ≠ 0) ∧
    (s.mInit = false → s.mPhysicsActors = []) ∧
    (∃ s' : PhysxSceneImpl, s.release = some s') := by
  obtain ⟨h1, h2, h3⟩ := reachable_lifecycleInvariant s h
  exact ⟨h1, h2, release_returns s (fun hi => (h1 hi).2.2.2.2.2) h3⟩

/-- C14 at a concrete input: the initialised sample scene. -/
theorem lifecycle_invariant_witness :
    Reachable readyScene ∧
    (readyScene.mInit = true →
      readyScene.mFoundation ≠ 0 ∧ readyScene.mPhysicsSDK ≠ 0 ∧ readyScene.mMaterial ≠ 0 ∧
        readyScene.mCooking ≠ 0 ∧ readyScene.mCpuDispatcher ≠ 0 ∧ readyScene.mScene ≠ 0) ∧
    (readyScene.mInit = false → readyScene.mPhysicsActors = []) ∧
    (∃ s' : PhysxSceneImpl, readyScene.release = some s') :=
  ⟨reachable_readyScene, lifecycle_invariant readyScene reachable_readyScene⟩

/-! ## The operations that do take the lock -/

theorem defaultRigidDynamic_trace (actor : Ptr) (s : PhysxSceneImpl) :
    (defaultRigidDynamic actor s).trace
      = s.trace ++ ([Call.setAngularDamping actor]
          ++ (if s.mSupportPVD = true then [Call.setActorFlagVisualization actor] else [])
          ++ [Call.clearKinematicFlag actor]) := by
  by_cases h : s.mSupportPVD = true <;> simp [defaultRigidDynamic, visualizeIfPVD, h]

theorem CreatePlane_holdsLock (actor : Ptr) (xNormal yNormal zNormal distance : ℚ)
    (s : PhysxSceneImpl) (h : Initialized s) :
    HoldsLock s (CreatePlane actor xNormal yNormal zNormal distance s) := by
  obtain ⟨-, -, hp, hm, -, -, hs⟩ := h
  by_cases h1 : actor = 0 <;> by_cases h2 : s.mSupportPVD = true <;>
    simp [HoldsLock, callsSince, CreatePlane, lockScene, addAndRegister,
      defaultRigidDynamic_trace, hp, hm, hs, h1, h2]

theorem CreateBoxDynamic_holdsLock (actor : Ptr) (pos halfExtents : Vector3) (density : ℚ)
    (s : PhysxSceneImpl) (h : Initialized s) :
    HoldsLock s (CreateBoxDynamic actor pos halfExtents density s) := by
  obtain ⟨-, -, hp, hm, -, -, hs⟩ := h
  by_cases h1 : actor = 0 <;> by_cases h2 : s.mSupportPVD = true <;>
    simp [HoldsLock, callsSince, CreateBoxDynamic, lockScene, addAndRegister,
      defaultRigidDynamic_trace, hp, hm, hs, h1, h2]

theorem CreateBoxKinematic_holdsLock (actor : Ptr) (pos halfExtents : Vector3) (density : ℚ)
    (s : PhysxSceneImpl) (h : Initialized s) :
    HoldsLock s (CreateBoxKinematic actor pos halfExtents density s) := by
  obtain ⟨-, -, hp, hm, -, -, hs⟩ := h
  by_cases h1 : actor = 0 <;> by_cases h2 : s.mSupportPVD = true <;>
    simp [HoldsLock, callsSince, CreateBoxKinematic, lockScene, addAndRegister,
      defaultRigidDynamic_trace, hp, hm, hs, h1, h2]

theorem CreateBoxStatic_holdsLock (actor : Ptr) (pos halfExtents : Vector3)
    (s : PhysxSceneImpl) (h : Initialized s) :
    HoldsLock s (CreateBoxStatic actor pos halfExtents s) := by
  obtain ⟨-, -, hp, hm, -, -, hs⟩ := h
  by_cases h1 : actor = 0 <;> by_cases h2 : s.mSupportPVD = true <;>
    simp [HoldsLock, callsSince, CreateBoxStatic, lockScene, addAndRegister,
      defaultRigidDynamic_trace, hp, hm, hs, h1, h2]

theorem CreateSphereDynamic_holdsLock (actor : Ptr) (pos : Vector3) (radius density : ℚ)
    (s : PhysxSceneImpl) (h : Initialized s) :
    HoldsLock s (CreateSphereDynamic actor pos radius density s) := by
  obtain ⟨-, -, hp, hm, -, -, hs⟩ := h
  by_cases h1 : actor = 0 <;> by_cases h2 : s.mSupportPVD = true <;>
    simp [HoldsLock, callsSince, CreateSphereDynamic, lockScene, addAndRegister,
      defaultRigidDynamic_trace, hp, hm, hs, h1, h2]

theorem CreateSphereKinematic_holdsLock (actor : Ptr) (pos : Vector3) (radius density : ℚ)
    (s : PhysxSceneImpl) (h : Initialized s) :
    HoldsLock s (CreateSphereKinematic actor pos radius density s) := by
  obtain ⟨-, -, hp, hm, -, -, hs⟩ := h
  by_cases h1 : actor = 0 <;> by_cases h2 : s.mSupportPVD = true <;>
    simp [HoldsLock, callsSince, CreateSphereKinematic, lockScene, addAndRegister,
      defaultRigidDynamic_trace, hp, hm, hs, h1, h2]

theorem CreateSphereStatic_holdsLock (actor : Ptr) (pos : Vector3) (radius : ℚ)
    (s : PhysxSceneImpl) (h : Initialized s) :
    HoldsLock s (CreateSphereStatic actor pos radius s) := by
  obtain ⟨-, -, hp, hm, -, -, hs⟩ := h
  by_cases h1 : actor = 0 <;> by_cases h2 : s.mSupportPVD = true <;>
    simp [HoldsLock, callsSince, CreateSphereStatic, lockScene, addAndRegister,
      defaultRigidDynamic_trace, hp, hm, hs, h1, h2]

theorem CreateCapsuleDynamic_holdsLock (actor : Ptr) (pos : Vector3) (radius halfHeight density : ℚ)
    (s : PhysxSceneImpl) (h : Initialized s) :
    HoldsLock s (CreateCapsuleDynamic actor pos radius halfHeight density s) := by
  obtain ⟨-, -, hp, hm, -, -, hs⟩ := h
  by_cases h1 : actor = 0 <;> by_cases h2 : s.mSupportPVD = true <;>
    simp [HoldsLock, callsSince, CreateCapsuleDynamic, lockScene, addAndRegister,
      defaultRigidDynamic_trace, hp, hm, hs, h1, h2]

theorem CreateCapsuleKinematic_holdsLock (actor : Ptr) (pos : Vector3) (radius halfHeight density : ℚ)
    (s : PhysxSceneImpl) (h : Initialized s) :
    HoldsLock s (CreateCapsuleKinematic actor pos radius halfHeight density s) := by
  obtain ⟨-, -, hp, hm, -, -, hs⟩ := h
  by_cases h1 : actor = 0 <;> by_cases h2 : s.mSupportPVD = true <;>
    simp [HoldsLock, callsSince, CreateCapsuleKinematic, lockScene, addAndRegister,
      defaultRigidDynamic_trace, hp, hm, hs, h1, h2]

theorem CreateCapsuleStatic_holdsLock (actor : Ptr) (pos : Vector3) (radius halfHeight : ℚ)
    (s : PhysxSceneImpl) (h : Initialized s) :
    HoldsLock s (CreateCapsuleStatic actor pos radius halfHeight s) := by
  obtain ⟨-, -, hp, hm, -, -, hs⟩ := h
  by_cases h1 : actor = 0 <;> by_cases h2 : s.mSupportPVD = true <;>
    simp [HoldsLock, callsSince, CreateCapsuleStatic, lockScene, addAndRegister,
      defaultRigidDynamic_trace, hp, hm, hs, h1, h2]

theorem CreateMeshKinematic_holdsLock (cookOk : Bool) (triangleMesh actor : Ptr)
    (pos scale : Vector3) (vb : List ℚ) (ib : List Nat) (density : ℚ)
    (s : PhysxSceneImpl) (h : Initialized s) :
    HoldsLock s (CreateMeshKinematic cookOk triangleMesh actor pos scale vb ib density s) := by
  obtain ⟨-, -, hp, hm, hc, -, hs⟩ := h
  by_cases h1 : actor = 0 <;> by_cases h2 : triangleMesh = 0 <;> cases cookOk <;>
    simp [HoldsLock, callsSince, CreateMeshKinematic, lockScene, addAndRegister, hp, hm, hc, hs, h1, h2]

theorem CreateMeshStatic_holdsLock (cookOk : Bool) (triangleMesh actor : Ptr)
    (pos scale : Vector3) (vb : List ℚ) (ib : List Nat)
    (s : PhysxSceneImpl) (h : Initialized s) :
    HoldsLock s (CreateMeshStatic cookOk triangleMesh actor pos scale vb ib s) := by
  obtain ⟨-, -, hp, hm, hc, -, hs⟩ := h
  by_cases h1 : actor = 0 <;> by_cases h2 : triangleMesh = 0 <;> cases cookOk <;>
    simp [HoldsLock, callsSince, CreateMeshStatic, lockScene, addAndRegister, hp, hm, hc, hs, h1, h2]

theorem create_holdsLock (r : EngineReplies) (op : CreateOp) (s : PhysxSceneImpl)
    (h : Initialized s)
    (hop : ∀ (hm : List Int) (c rw : Nat) (sc : Vector3), op ≠ .heightField hm c rw sc) :
    HoldsLock s (create r op s) := by
  cases op with
  | plane x y z d => exact CreatePlane_holdsLock r.actor x y z d s h
  | heightField hm c rw sc => exact absurd rfl (hop hm c rw sc)
  | boxDynamic p he d => exact CreateBoxDynamic_holdsLock r.actor p he d s h
  | boxKinematic p he d => exact CreateBoxKinematic_holdsLock r.actor p he d s h
  | boxStatic p he => exact CreateBoxStatic_holdsLock r.actor p he s h
  | sphereDynamic p rad d => exact CreateSphereDynamic_holdsLock r.actor p rad d s h
  | sphereKinematic p rad d => exact CreateSphereKinematic_holdsLock r.actor p rad d s h
  | sphereStatic p rad => exact CreateSphereStatic_holdsLock r.actor p rad s h
  | capsuleDynamic p rad hh d => exact CreateCapsuleDynamic_holdsLock r.actor p rad hh d s h
  | capsuleKinematic p rad hh d => exact CreateCapsuleKinematic_holdsLock r.actor p rad hh d s h
  | capsuleStatic p rad hh => exact CreateCapsuleStatic_holdsLock r.actor p rad hh s h
  | meshKinematic p sc vb ib d =>
    exact CreateMeshKinematic_holdsLock r.cookOk r.triangleMesh r.actor p sc vb ib d s h
  | meshStatic p sc vb ib =>
    exact CreateMeshStatic_holdsLock r.cookOk r.triangleMesh r.actor p sc vb ib s h

end PhysxSceneImpl

end PhysxWrap
